import Mathlib

/-!
Verification of the file-ingestion-to-table pipeline of `Text2sql.py`
(Text2Sql repository), shallowly embedded in Lean 4.

External libraries (pandas, pyreadstat, sas7bdat, sqlite3, streamlit, the
LLM agent) are modelled as oracles: each external call site takes its
outcome as an explicit parameter.  The filesystem is modelled as the list
of paths currently present on disk; `st.error` / `st.warning` messages are
accumulated in lists.
-/

/-- Python `s.endswith(suffix)`: the suffix's characters are a suffix of the
string's characters.  Mirrors the extension dispatch in `read_data`
(`filename.endswith(".csv")` etc., src/Text2sql.py lines 36-59) and the
folder filter (line 144). -/
def pyEndsWith (s suffix : String) : Bool :=
  suffix.data.isSuffixOf s.data

/-- The base-name part of Python `os.path.splitext` for a plain file name
(no directory separator): split at the last dot, provided some character
before that dot is not itself a dot (CPython skips a leading run of dots);
otherwise the whole name is the base.  Used for table and database naming
(src/Text2sql.py lines 113, 116, 131, 134, 148, 151, 162, 165). -/
def splitextBase (s : String) : String :=
  let rs := s.data.reverse
  let k := rs.findIdx (· = '.')
  let base := rs.drop (k + 1)
  if k < rs.length ∧ base.any (· ≠ '.') then ⟨base.reverse⟩ else s

/-- Python `os.path.basename`: the part of the path after the last slash
(src/Text2sql.py line 129). -/
def pyBasename (s : String) : String :=
  ⟨(s.data.reverse.takeWhile (· ≠ '/')).reverse⟩

/-- A decoded table (pandas DataFrame): ordered column names and ordered
rows; cell values are kept abstract as strings. -/
structure DataFrame where
  cols : List String
  rows : List (List String)
deriving DecidableEq

/-- The filesystem, as the list of paths currently present on disk. -/
abbrev FS := List String

/-- Writing a file (`open(path, "wb")` + write): the path becomes present;
an existing file is truncated in place, so presence is unchanged. -/
def fsWrite (p : String) (fs : FS) : FS :=
  if p ∈ fs then fs else p :: fs

/-- `os.remove(path)` when the path exists: drop its (single) entry. -/
def fsRemove (p : String) : FS → FS
  | [] => []
  | q :: rest => if q = p then rest else q :: fsRemove p rest

/-- Outcome of an external decode call: a DataFrame, or the text of the
raised exception. -/
abbrev DecodeResult := Except String DataFrame

instance {ε α : Type} [DecidableEq ε] [DecidableEq α] :
    DecidableEq (Except ε α) := fun x y =>
  match x, y with
  | .ok a, .ok b =>
    match decEq a b with
    | isTrue h => isTrue (by rw [h])
    | isFalse h => isFalse (by intro hh; cases hh; exact h rfl)
  | .ok _, .error _ => isFalse (by intro h; cases h)
  | .error _, .ok _ => isFalse (by intro h; cases h)
  | .error a, .error b =>
    match decEq a b with
    | isTrue h => isTrue (by rw [h])
    | isFalse h => isFalse (by intro hh; cases hh; exact h rfl)

/-- Oracle for the four external readers a single `read_data` call can
reach: `pd.read_csv`, `pd.read_excel`, `pyreadstat.read_xport`, and the
`sas7bdat` fallback reader, each with its outcome on this input. -/
structure Decoders where
  read_csv : DecodeResult
  read_excel : DecodeResult
  read_xport : DecodeResult
  sas7bdat_read : DecodeResult
deriving DecidableEq

/-- Result of `read_data`: the returned table (`None` on failure), the
`st.error` messages reported, and the filesystem afterwards. -/
structure ReadOutcome where
  table : Option DataFrame
  errors : List String
  fs : FS
deriving DecidableEq

/-- Shallow embedding of `read_data` (src/Text2sql.py lines 33-63).
Dispatches on the file name's extension; for `.xpt`, tries
`pyreadstat.read_xport` and on failure writes `temp_<filename>`, tries the
`sas7bdat` reader, removing the temporary file only on that reader's
success (line 53) — the except branch (lines 56-58) reports the combined
error and returns `None` without removing it.  Exceptions from the CSV and
Excel readers and the unsupported-format `ValueError` are caught by the
outer handler (lines 61-63). -/
def read_data (d : Decoders) (filename : String) (fs : FS) : ReadOutcome :=
  if pyEndsWith filename ".csv" then
    match d.read_csv with
    | .ok df => ⟨some df, [], fs⟩
    | .error e => ⟨none, ["Error reading file " ++ filename ++ ": " ++ e], fs⟩
  else if pyEndsWith filename ".xlsx" then
    match d.read_excel with
    | .ok df => ⟨some df, [], fs⟩
    | .error e => ⟨none, ["Error reading file " ++ filename ++ ": " ++ e], fs⟩
  else if pyEndsWith filename ".xpt" then
    match d.read_xport with
    | .ok df => ⟨some df, [], fs⟩
    | .error pe =>
      let temp_xpt_path := "temp_" ++ filename
      let fs1 := fsWrite temp_xpt_path fs
      match d.sas7bdat_read with
      | .ok df => ⟨some df, [], fsRemove temp_xpt_path fs1⟩
      | .error se =>
        ⟨none,
         ["Error reading XPT file " ++ filename ++ ": pyreadstat error: " ++ pe
           ++ ", sas7bdat error: " ++ se],
         fs1⟩
  else
    ⟨none, ["Error reading file " ++ filename ++ ": Unsupported file format."], fs⟩

/-- The tables of one SQLite database file: an association of table name to
contents. -/
abbrev Tables := List (String × DataFrame)

/-- The SQLite side of the world: an association of database file path to
that database's tables. -/
abbrev SqliteState := List (String × Tables)

/-- The tables of the database at `p` (empty when the file has no tables
yet — `sqlite3.connect` creates an empty database). -/
def lookupTables (dbs : SqliteState) (p : String) : Tables :=
  match dbs with
  | [] => []
  | (q, T) :: rest => if q = p then T else lookupTables rest p

/-- `df.to_sql(table_name, conn, if_exists="replace")`: in the database at
`p`, drop any table named `t` and store `df` under `t`; other databases
and other tables are untouched. -/
def setTable (dbs : SqliteState) (p t : String) (df : DataFrame) : SqliteState :=
  (p, (t, df) :: (lookupTables dbs p).filter (fun x => x.1 ≠ t))
    :: dbs.filter (fun x => x.1 ≠ p)

/-- Result of `create_sqlite_db_from_dataframe`: the boolean result, the
`st.error` messages reported, and the SQLite and filesystem state
afterwards. -/
structure LoadOutcome where
  ok : Bool
  errors : List String
  sql : SqliteState
  fs : FS
deriving DecidableEq

/-- Shallow embedding of `create_sqlite_db_from_dataframe`
(src/Text2sql.py lines 65-74).  The internal `sqlite3`/`to_sql` call is an
external effect whose outcome is the `outcome` parameter: `none` means the
write succeeded (the database file now exists and holds `df` under
`table_name`, replacing any previous table of that name); `some e` means
an exception with text `e` was raised, which the function catches,
reporting the error and returning `False`. -/
def create_sqlite_db_from_dataframe (df : DataFrame) (db_path table_name : String)
    (outcome : Option String) (sql : SqliteState) (fs : FS) : LoadOutcome :=
  match outcome with
  | none => ⟨true, [], setTable sql db_path table_name df, fsWrite db_path fs⟩
  | some e => ⟨false, ["Error creating database: " ++ e], sql, fs⟩

/-- Oracle for the `os.path` calls the folder branch makes on the entered
path, plus the directory listing. -/
structure FolderInfo where
  pathExists : Bool
  pathIsDir : Bool
  entries : List String
deriving DecidableEq

/-- What the folder branch does with the entered path before ingesting:
nothing (falsy input), the "Invalid folder path." error, the
no-supported-files warning, or the list of matched entry names. -/
inductive FolderOutcome where
  | noInput : FolderOutcome
  | invalidPath : String → FolderOutcome
  | noFiles : String → FolderOutcome
  | files : List String → FolderOutcome
deriving DecidableEq

/-- An entry name matches the folder filter
`f.endswith((".csv", ".xlsx", ".xpt"))` (src/Text2sql.py line 144). -/
def isSupportedName (f : String) : Bool :=
  pyEndsWith f ".csv" || pyEndsWith f ".xlsx" || pyEndsWith f ".xpt"

/-- Shallow embedding of the folder-branch path handling
(src/Text2sql.py lines 141-156): `if folder_path and os.path.exists(...)
and os.path.isdir(...)` selects the supported entries; a non-empty list is
processed, an empty one warns; `elif folder_path:` shows the invalid-path
error; a falsy (empty) input does nothing at all. -/
def folder_branch (folder_path : String) (info : FolderInfo) : FolderOutcome :=
  if (folder_path != "") && info.pathExists && info.pathIsDir then
    let supported_files := info.entries.filter isSupportedName
    if supported_files.isEmpty then
      .noFiles "No supported files found in the specified folder."
    else
      .files supported_files
  else if folder_path != "" then
    .invalidPath "Invalid folder path."
  else
    .noInput

/-- Discriminator: is a folder-branch outcome the invalid-path error? -/
def isInvalidPath : FolderOutcome → Bool
  | .invalidPath _ => true
  | _ => false

/-- One file of the upload branch: its name together with the outcomes of
the external calls made while processing it (the decoders it may reach and
the SQLite write). -/
structure UploadFile where
  name : String
  dec : Decoders
  load : Option String
deriving DecidableEq

/-- The mutable state of one `main` session: the filesystem, the SQLite
world, the `db_paths` list, and the reported errors and warnings. -/
structure Session where
  fs : FS
  sql : SqliteState
  db_paths : List String
  errors : List String
  warnings : List String
deriving DecidableEq

/-- The session state at the top of `main`: nothing on disk from this
session, no databases, `db_paths = []`. -/
def emptySession : Session := ⟨[], [], [], [], []⟩

/-- The temporary copy path `f"temp_{uploaded_file.name}"` of an uploaded
file (src/Text2sql.py line 109). -/
def tmpPathOf (f : UploadFile) : String := "temp_" ++ f.name

/-- The database path `f"temp_{os.path.splitext(uploaded_file.name)[0]}.db"`
of an uploaded file (src/Text2sql.py line 113). -/
def dbPathOf (f : UploadFile) : String :=
  "temp_" ++ splitextBase f.name ++ ".db"

/-- One iteration of the upload loop (src/Text2sql.py lines 108-118):
write the temporary copy, decode it, on a decoded table attempt the SQLite
load and on success append the database path, then remove the temporary
copy. -/
def upload_step (s : Session) (f : UploadFile) : Session :=
  let temp_file_path := tmpPathOf f
  let fs1 := fsWrite temp_file_path s.fs
  let r := read_data f.dec f.name fs1
  let s1 : Session :=
    match r.table with
    | some df =>
      let lr := create_sqlite_db_from_dataframe df (dbPathOf f)
        (splitextBase f.name) f.load s.sql r.fs
      if lr.ok then
        ⟨lr.fs, lr.sql, s.db_paths ++ [dbPathOf f],
         s.errors ++ r.errors ++ lr.errors, s.warnings⟩
      else
        ⟨lr.fs, lr.sql, s.db_paths,
         s.errors ++ r.errors ++ lr.errors, s.warnings⟩
    | none => ⟨r.fs, s.sql, s.db_paths, s.errors ++ r.errors, s.warnings⟩
  ⟨fsRemove temp_file_path s1.fs, s1.sql, s1.db_paths, s1.errors, s1.warnings⟩

/-- The upload branch's loop over the uploaded files
(src/Text2sql.py lines 107-118). -/
def runUploadLoop (files : List UploadFile) (s : Session) : Session :=
  files.foldl upload_step s

/-- One line of the URL branch: the (stripped) URL together with the
outcomes of the external calls made while processing it: the
`requests.get` fetch (`.error` is the raised request exception's text),
the decoders, and the SQLite write. -/
structure UrlItem where
  url : String
  fetched : Except String Unit
  dec : Decoders
  load : Option String
deriving DecidableEq

/-- The file name and database path the URL branch derives from a URL
(src/Text2sql.py lines 129-131). -/
def urlDbPathOf (it : UrlItem) : String :=
  splitextBase (pyBasename it.url) ++ ".db"

/-- One iteration of the URL loop (src/Text2sql.py lines 124-139): fetch
the URL — a raised request exception is caught per-URL and reported — then
decode and, on a decoded table, attempt the SQLite load and on success
append the database path. -/
def url_step (s : Session) (it : UrlItem) : Session :=
  match it.fetched with
  | .error e =>
    ⟨s.fs, s.sql, s.db_paths,
     s.errors ++ ["Error loading file from " ++ it.url ++ ": " ++ e], s.warnings⟩
  | .ok _ =>
    let filename := pyBasename it.url
    let r := read_data it.dec filename s.fs
    match r.table with
    | some df =>
      let lr := create_sqlite_db_from_dataframe df (urlDbPathOf it)
        (splitextBase filename) it.load s.sql r.fs
      if lr.ok then
        ⟨lr.fs, lr.sql, s.db_paths ++ [urlDbPathOf it],
         s.errors ++ r.errors ++ lr.errors, s.warnings⟩
      else
        ⟨lr.fs, lr.sql, s.db_paths,
         s.errors ++ r.errors ++ lr.errors, s.warnings⟩
    | none => ⟨r.fs, s.sql, s.db_paths, s.errors ++ r.errors, s.warnings⟩

/-- The URL branch's loop over the entered URLs
(src/Text2sql.py lines 124-139). -/
def runUrlLoop (items : List UrlItem) (s : Session) : Session :=
  items.foldl url_step s

/-- Outcome of the agent calls for one database: agent construction
failed, `agent_executor.run` raised, or it returned an answer. -/
inductive AgentOutcome where
  | createFailed : AgentOutcome
  | runFailed : String → AgentOutcome
  | answer : String → AgentOutcome
deriving DecidableEq

/-- The string appended to `results` for one database
(src/Text2sql.py lines 174-185). -/
def resultFor : AgentOutcome → String
  | .answer a => a
  | .runFailed e => "Error: " ++ e
  | .createFailed => "Agent creation failed."

/-- The query loop (src/Text2sql.py lines 172-185): for each database path
in order, build an agent and run the one query against it, appending one
entry to `results`; agent failures contribute an error entry instead.
`agent` is the oracle giving the external agent's outcome on a database
path and query.  The returned list is then displayed in order by
`for result in results: st.write(result)` (lines 186-187). -/
def query_loop (agent : String → String → AgentOutcome) (query : String) :
    List String → List String → List String
  | [], results => results
  | db_path :: rest, results =>
    query_loop agent query rest (results ++ [resultFor (agent db_path query)])

/-- The cleanup loop `for db_path in db_paths: os.remove(db_path)`
(src/Text2sql.py lines 188-189).  `os.remove` on a missing path raises
`FileNotFoundError`, which nothing catches: the loop aborts, returning the
exception text and the filesystem as it stood. -/
def remove_db_paths (paths : List String) (fs : FS) : Option String × FS :=
  match paths with
  | [] => (none, fs)
  | p :: rest =>
    if p ∈ fs then remove_db_paths rest (fsRemove p fs)
    else (some ("FileNotFoundError: " ++ p), fs)

/-! ### String-suffix toolbox -/

theorem pyEndsWith_iff {s suf : String} :
    pyEndsWith s suf = true ↔ suf.data <:+ s.data := by
  simp [pyEndsWith]

theorem getLast_of_pyEndsWith {s suf : String} (h : pyEndsWith s suf = true)
    (hne : suf.data ≠ []) : s.data.getLast? = suf.data.getLast? := by
  rcases pyEndsWith_iff.mp h with ⟨t, ht⟩
  cases h2 : suf.data.getLast? with
  | none => exact absurd (List.getLast?_eq_none_iff.mp h2) hne
  | some c => rw [← ht, List.getLast?_append, h2]; rfl

theorem pyEndsWith_disjoint {s a b : String} (hane : a.data ≠ []) (hbne : b.data ≠ [])
    (hlast : a.data.getLast? ≠ b.data.getLast?) (ha : pyEndsWith s a = true) :
    pyEndsWith s b = false := by
  cases hb : pyEndsWith s b with
  | false => rfl
  | true =>
    exact absurd ((getLast_of_pyEndsWith ha hane).symm.trans
      (getLast_of_pyEndsWith hb hbne)) hlast

theorem pyEndsWith_append_left {s suf : String} (t : String)
    (h : pyEndsWith s suf = true) : pyEndsWith (t ++ s) suf = true := by
  rw [pyEndsWith_iff] at h ⊢
  rw [String.data_append]
  exact h.trans (List.suffix_append _ _)

theorem pyEndsWith_append_self (x suf : String) : pyEndsWith (x ++ suf) suf = true := by
  rw [pyEndsWith_iff, String.data_append]
  exact List.suffix_append _ _

theorem db_not_supported {x : String} (h : pyEndsWith x ".db" = true) :
    isSupportedName x = false := by
  have h1 := pyEndsWith_disjoint (s := x) (a := ".db") (b := ".csv")
    (by decide) (by decide) (by decide) h
  have h2 := pyEndsWith_disjoint (s := x) (a := ".db") (b := ".xlsx")
    (by decide) (by decide) (by decide) h
  have h3 := pyEndsWith_disjoint (s := x) (a := ".db") (b := ".xpt")
    (by decide) (by decide) (by decide) h
  simp [isSupportedName, h1, h2, h3]

theorem supported_ne_db {u v : String} (hu : pyEndsWith u ".db" = true)
    (hv : isSupportedName v = true) : v ≠ u := by
  intro h
  subst h
  rw [db_not_supported hu] at hv
  exact absurd hv (by simp)

/-! ### Filesystem toolbox -/

theorem mem_fsWrite {x p : String} {fs : FS} :
    x ∈ fsWrite p fs ↔ x = p ∨ x ∈ fs := by
  unfold fsWrite
  by_cases hmem : p ∈ fs
  · rw [if_pos hmem]
    constructor
    · exact Or.inr
    · rintro (rfl | hx)
      · exact hmem
      · exact hx
  · rw [if_neg hmem]
    exact List.mem_cons

theorem fsWrite_not_mem {p : String} {fs : FS} (h : p ∉ fs) :
    fsWrite p fs = p :: fs := by
  simp [fsWrite, h]

theorem fsRemove_cons_self {p : String} {fs : FS} : fsRemove p (p :: fs) = fs := by
  simp [fsRemove]

theorem fsRemove_cons_ne {p q : String} {fs : FS} (h : q ≠ p) :
    fsRemove p (q :: fs) = q :: fsRemove p fs := by
  simp [fsRemove, h]

theorem fsRemove_not_mem {p : String} {fs : FS} (h : p ∉ fs) : fsRemove p fs = fs := by
  induction fs with
  | nil => rfl
  | cons q rest ih =>
    have hq : q ≠ p := fun hqp => h (hqp ▸ List.mem_cons_self q rest)
    rw [fsRemove_cons_ne hq, ih (fun hp => h (List.mem_cons_of_mem q hp))]

theorem mem_fsRemove {x p : String} {fs : FS} (hx : x ∈ fs) (hne : x ≠ p) :
    x ∈ fsRemove p fs := by
  induction fs with
  | nil => cases hx
  | cons q rest ih =>
    by_cases hq : q = p
    · subst hq
      rw [fsRemove_cons_self]
      rcases List.mem_cons.mp hx with rfl | hx'
      · exact absurd rfl hne
      · exact hx'
    · rw [fsRemove_cons_ne hq]
      rcases List.mem_cons.mp hx with rfl | hx'
      · exact List.mem_cons_self _ _
      · exact List.mem_cons_of_mem _ (ih hx')

theorem fsRemove_append_self {p : String} {l : FS} (h : p ∉ l) :
    fsRemove p (l ++ [p]) = l := by
  induction l with
  | nil => simp [fsRemove]
  | cons q rest ih =>
    have hq : q ≠ p := fun hqp => h (hqp ▸ List.mem_cons_self q rest)
    rw [List.cons_append, fsRemove_cons_ne hq,
      ih (fun hp => h (List.mem_cons_of_mem q hp))]

/-! ### SQLite-state toolbox -/

theorem lookupTables_setTable_self (dbs : SqliteState) (p t : String) (df : DataFrame) :
    lookupTables (setTable dbs p t df) p
      = (t, df) :: (lookupTables dbs p).filter (fun x => x.1 ≠ t) := by
  simp [setTable, lookupTables]

theorem lookupTables_filter_ne (dbs : SqliteState) {p q : String} (h : p ≠ q) :
    lookupTables (dbs.filter (fun x => x.1 ≠ q)) p = lookupTables dbs p := by
  induction dbs with
  | nil => rfl
  | cons a rest ih =>
    obtain ⟨b, T⟩ := a
    by_cases hq : b = q
    · have hbp : b ≠ p := fun hbp => h (by rw [← hbp, hq])
      rw [List.filter_cons_of_neg (by simp [hq])]
      rw [ih]
      rw [show lookupTables ((b, T) :: rest) p
            = if b = p then T else lookupTables rest p from rfl]
      rw [if_neg hbp]
    · rw [List.filter_cons_of_pos (by simp [hq])]
      show (if b = p then T else _) = (if b = p then T else _)
      by_cases hp : b = p
      · rw [if_pos hp, if_pos hp]
      · rw [if_neg hp, if_neg hp, ih]

theorem lookupTables_setTable_ne (dbs : SqliteState) {p q : String} (t : String)
    (df : DataFrame) (h : p ≠ q) :
    lookupTables (setTable dbs q t df) p = lookupTables dbs p := by
  simp only [setTable, lookupTables]
  rw [if_neg (fun hqp => h hqp.symm)]
  exact lookupTables_filter_ne dbs h

/-! ### `read_data` facts -/

theorem read_data_fs_inv (d : Decoders) (n : String) (fs fs' : FS) :
    (read_data d n fs).table = (read_data d n fs').table ∧
    (read_data d n fs).errors = (read_data d n fs').errors := by
  unfold read_data
  cases h1 : pyEndsWith n ".csv"
  · cases h2 : pyEndsWith n ".xlsx"
    · cases h3 : pyEndsWith n ".xpt"
      · simp [h1, h2, h3]
      · simp only [h1, h2, h3]
        cases d.read_xport with
        | ok df => simp
        | error pe => cases d.sas7bdat_read <;> simp
    · simp only [h1, h2]
      cases d.read_excel <;> simp
  · simp only [h1]
    cases d.read_csv <;> simp

/-- Did the external call return a DataFrame? -/
def isOkB : DecodeResult → Bool
  | .ok _ => true
  | .error _ => false

/-- The table `read_data` decodes from an uploaded file (the filesystem
argument does not influence it, by `read_data_fs_inv`). -/
def decodedDfOf (f : UploadFile) : Option DataFrame :=
  (read_data f.dec f.name []).table

/-- An uploaded file takes the straight-line success path of its loop
iteration: its name reaches one of the three decoder branches whose
primary reader succeeds, and the SQLite write succeeds. -/
def happyFile (f : UploadFile) : Bool :=
  (f.load == none) &&
  ((pyEndsWith f.name ".csv" && isOkB f.dec.read_csv) ||
   (pyEndsWith f.name ".xlsx" && isOkB f.dec.read_excel) ||
   (pyEndsWith f.name ".xpt" && isOkB f.dec.read_xport))

theorem happy_load {f : UploadFile} (h : happyFile f = true) : f.load = none := by
  unfold happyFile at h
  simp only [Bool.and_eq_true, beq_iff_eq] at h
  exact h.1

theorem happy_supported {f : UploadFile} (h : happyFile f = true) :
    isSupportedName f.name = true := by
  unfold happyFile at h
  simp only [Bool.and_eq_true, Bool.or_eq_true] at h
  unfold isSupportedName
  simp only [Bool.or_eq_true]
  rcases h.2 with (h' | h') | h'
  · exact Or.inl (Or.inl h'.1)
  · exact Or.inl (Or.inr h'.1)
  · exact Or.inr h'.1

theorem isOkB_iff {r : DecodeResult} : isOkB r = true ↔ ∃ df, r = .ok df := by
  cases r <;> simp [isOkB]

theorem read_data_happy {f : UploadFile} (h : happyFile f = true) (fs : FS) :
    read_data f.dec f.name fs = ⟨decodedDfOf f, [], fs⟩ ∧
    ∃ df, decodedDfOf f = some df := by
  unfold happyFile at h
  simp only [Bool.and_eq_true, Bool.or_eq_true] at h
  rcases h.2 with (h' | h') | h'
  · obtain ⟨df, hc⟩ := isOkB_iff.mp h'.2
    unfold decodedDfOf read_data
    simp [h'.1, hc]
  · have hcsv : pyEndsWith f.name ".csv" = false :=
      pyEndsWith_disjoint (by decide) (by decide) (by decide) h'.1
    obtain ⟨df, hc⟩ := isOkB_iff.mp h'.2
    unfold decodedDfOf read_data
    simp [h'.1, hcsv, hc]
  · have hcsv : pyEndsWith f.name ".csv" = false :=
      pyEndsWith_disjoint (by decide) (by decide) (by decide) h'.1
    have hxlsx : pyEndsWith f.name ".xlsx" = false :=
      pyEndsWith_disjoint (by decide) (by decide) (by decide) h'.1
    obtain ⟨df, hc⟩ := isOkB_iff.mp h'.2
    unfold decodedDfOf read_data
    simp [h'.1, hcsv, hxlsx, hc]

/-! ### Upload-loop characterization -/

theorem supported_tmp {f : UploadFile} (h : isSupportedName f.name = true) :
    isSupportedName (tmpPathOf f) = true := by
  unfold isSupportedName at h ⊢
  simp only [Bool.or_eq_true] at h ⊢
  rcases h with (h | h) | h
  · exact Or.inl (Or.inl (pyEndsWith_append_left _ h))
  · exact Or.inl (Or.inr (pyEndsWith_append_left _ h))
  · exact Or.inr (pyEndsWith_append_left _ h)

theorem dbPath_ends_db (f : UploadFile) : pyEndsWith (dbPathOf f) ".db" = true :=
  pyEndsWith_append_self ("temp_" ++ splitextBase f.name) ".db"

theorem upload_step_happy {f : UploadFile} {df : DataFrame} (h : happyFile f = true)
    (hdf : decodedDfOf f = some df) (s : Session) :
    upload_step s f =
      ⟨fsRemove (tmpPathOf f) (fsWrite (dbPathOf f) (fsWrite (tmpPathOf f) s.fs)),
       setTable s.sql (dbPathOf f) (splitextBase f.name) df,
       s.db_paths ++ [dbPathOf f], s.errors, s.warnings⟩ := by
  obtain ⟨hr, _⟩ := read_data_happy h (fsWrite (tmpPathOf f) s.fs)
  simp [upload_step, hr, hdf, happy_load h, create_sqlite_db_from_dataframe]

theorem runUploadLoop_cons (f : UploadFile) (t : List UploadFile) (s : Session) :
    runUploadLoop (f :: t) s = runUploadLoop t (upload_step s f) := rfl

theorem runUploadLoop_happy_spec (files : List UploadFile) (s : Session)
    (hhappy : ∀ f ∈ files, happyFile f = true)
    (hnodup : (files.map dbPathOf).Nodup)
    (hfresh : ∀ f ∈ files, dbPathOf f ∉ s.fs)
    (hdbext : ∀ x ∈ s.fs, pyEndsWith x ".db" = true)
    (hsql : ∀ f ∈ files, lookupTables s.sql (dbPathOf f) = []) :
    (runUploadLoop files s).fs = (files.map dbPathOf).reverse ++ s.fs ∧
    (runUploadLoop files s).db_paths = s.db_paths ++ files.map dbPathOf ∧
    (runUploadLoop files s).errors = s.errors ∧
    (runUploadLoop files s).warnings = s.warnings ∧
    (∀ f ∈ files, lookupTables (runUploadLoop files s).sql (dbPathOf f)
        = [(splitextBase f.name, (decodedDfOf f).getD ⟨[], []⟩)]) ∧
    (∀ q : String, (∀ f ∈ files, dbPathOf f ≠ q) →
        lookupTables (runUploadLoop files s).sql q = lookupTables s.sql q) := by
  induction files generalizing s with
  | nil => simp [runUploadLoop]
  | cons f t ih =>
    have hf : happyFile f = true := hhappy f (List.mem_cons_self f t)
    obtain ⟨-, df, hdf⟩ := read_data_happy hf []
    have hstep := upload_step_happy hf hdf s
    have hsupp := happy_supported hf
    have htmp_supported : isSupportedName (tmpPathOf f) = true := supported_tmp hsupp
    have htmp_not_mem : tmpPathOf f ∉ s.fs := by
      intro hmem
      have hns := db_not_supported (hdbext _ hmem)
      rw [htmp_supported] at hns
      exact Bool.noConfusion hns
    have hdbp_ends : pyEndsWith (dbPathOf f) ".db" = true := dbPath_ends_db f
    have htmp_ne_dbp : tmpPathOf f ≠ dbPathOf f :=
      supported_ne_db hdbp_ends htmp_supported
    have hdbp_not_mem : dbPathOf f ∉ s.fs := hfresh f (List.mem_cons_self f t)
    have hfs1 : fsWrite (tmpPathOf f) s.fs = tmpPathOf f :: s.fs :=
      fsWrite_not_mem htmp_not_mem
    have hdbp_not_mem1 : dbPathOf f ∉ tmpPathOf f :: s.fs := by
      intro hmem
      rcases List.mem_cons.mp hmem with heq | hmem'
      · exact htmp_ne_dbp heq.symm
      · exact hdbp_not_mem hmem'
    have hfs2 : fsWrite (dbPathOf f) (tmpPathOf f :: s.fs)
        = dbPathOf f :: tmpPathOf f :: s.fs := fsWrite_not_mem hdbp_not_mem1
    have hfs3 : fsRemove (tmpPathOf f) (dbPathOf f :: tmpPathOf f :: s.fs)
        = dbPathOf f :: s.fs := by
      rw [fsRemove_cons_ne (fun hq => htmp_ne_dbp hq.symm), fsRemove_cons_self]
    have hs'fields : upload_step s f =
        ⟨dbPathOf f :: s.fs, setTable s.sql (dbPathOf f) (splitextBase f.name) df,
         s.db_paths ++ [dbPathOf f], s.errors, s.warnings⟩ := by
      rw [hstep, hfs1, hfs2, hfs3]
    have hnodup' : (∀ x ∈ t, ¬dbPathOf x = dbPathOf f) ∧ (t.map dbPathOf).Nodup := by
      simpa using hnodup
    have hne_head : ∀ g ∈ t, dbPathOf g ≠ dbPathOf f := fun g hg => hnodup'.1 g hg
    obtain ⟨ihfs, ihdb, iherr, ihwarn, ihlook, ihpres⟩ :=
      ih (upload_step s f)
        (fun g hg => hhappy g (List.mem_cons_of_mem f hg))
        hnodup'.2
        (by
          intro g hg
          rw [hs'fields]
          intro hmem
          rcases List.mem_cons.mp hmem with heq | hmem'
          · exact hne_head g hg heq
          · exact hfresh g (List.mem_cons_of_mem f hg) hmem')
        (by
          intro x hx
          rw [hs'fields] at hx
          rcases List.mem_cons.mp hx with rfl | hx'
          · exact hdbp_ends
          · exact hdbext x hx')
        (by
          intro g hg
          rw [hs'fields]
          show lookupTables (setTable s.sql (dbPathOf f) (splitextBase f.name) df)
            (dbPathOf g) = []
          rw [lookupTables_setTable_ne _ _ _ (hne_head g hg)]
          exact hsql g (List.mem_cons_of_mem f hg))
    rw [runUploadLoop_cons]
    refine ⟨?_, ?_, ?_, ?_, ?_, ?_⟩
    · rw [ihfs, hs'fields]
      simp
    · rw [ihdb, hs'fields]
      simp
    · rw [iherr, hs'fields]
    · rw [ihwarn, hs'fields]
    · intro g hg
      rcases List.mem_cons.mp hg with rfl | hg'
      · rw [ihpres (dbPathOf g) (hne_head), hs'fields]
        show lookupTables (setTable s.sql (dbPathOf g) (splitextBase g.name) df)
          (dbPathOf g) = _
        rw [lookupTables_setTable_self, hsql g (List.mem_cons_self g t), hdf]
        simp
      · exact ihlook g hg'
    · intro q hq
      rw [ihpres q (fun g hg => hq g (List.mem_cons_of_mem f hg)), hs'fields]
      show lookupTables (setTable s.sql (dbPathOf f) (splitextBase f.name) df) q
        = lookupTables s.sql q
      rw [lookupTables_setTable_ne _ _ _ (fun hqf => hq f (List.mem_cons_self f t) hqf.symm)]

/-! ### Per-item outcome of the ingestion loops -/

/-- The database path an uploaded file contributes to `db_paths`, when its
decode returns a table and its SQLite write succeeds; `none` otherwise. -/
def uploadSuccessPath (f : UploadFile) : Option String :=
  match (read_data f.dec f.name []).table, f.load with
  | some _, none => some (dbPathOf f)
  | _, _ => none

/-- The `st.error` messages one uploaded file's loop iteration reports. -/
def uploadErrorsOf (f : UploadFile) : List String :=
  (read_data f.dec f.name []).errors ++
  (match (read_data f.dec f.name []).table, f.load with
   | some _, some e => ["Error creating database: " ++ e]
   | _, _ => [])

theorem upload_step_db_paths (s : Session) (f : UploadFile) :
    (upload_step s f).db_paths = s.db_paths ++ (uploadSuccessPath f).toList := by
  simp only [upload_step, uploadSuccessPath]
  have htab := (read_data_fs_inv f.dec f.name (fsWrite (tmpPathOf f) s.fs) []).1
  simp only [htab]
  cases h1 : (read_data f.dec f.name []).table with
  | none => simp
  | some df =>
    cases hl : f.load with
    | none => simp [create_sqlite_db_from_dataframe]
    | some e => simp [create_sqlite_db_from_dataframe]

theorem upload_step_errors (s : Session) (f : UploadFile) :
    (upload_step s f).errors = s.errors ++ uploadErrorsOf f := by
  simp only [upload_step, uploadErrorsOf]
  have htab := (read_data_fs_inv f.dec f.name (fsWrite (tmpPathOf f) s.fs) []).1
  have herr := (read_data_fs_inv f.dec f.name (fsWrite (tmpPathOf f) s.fs) []).2
  simp only [htab, herr]
  cases h1 : (read_data f.dec f.name []).table with
  | none => simp
  | some df =>
    cases hl : f.load with
    | none => simp [create_sqlite_db_from_dataframe]
    | some e => simp [create_sqlite_db_from_dataframe]

theorem runUploadLoop_db_paths (files : List UploadFile) (s : Session) :
    (runUploadLoop files s).db_paths
      = s.db_paths ++ files.filterMap uploadSuccessPath := by
  induction files generalizing s with
  | nil => simp [runUploadLoop]
  | cons f t ih =>
    rw [runUploadLoop_cons, ih, upload_step_db_paths]
    cases h : uploadSuccessPath f with
    | none => simp [List.filterMap_cons_none h]
    | some p => simp [List.filterMap_cons_some h]

theorem runUploadLoop_errors (files : List UploadFile) (s : Session) :
    (runUploadLoop files s).errors = s.errors ++ files.flatMap uploadErrorsOf := by
  induction files generalizing s with
  | nil => simp [runUploadLoop]
  | cons f t ih =>
    rw [runUploadLoop_cons, ih, upload_step_errors]
    simp

/-- The database path a URL line contributes to `db_paths`, when its fetch,
decode, and SQLite write all succeed; `none` otherwise. -/
def urlSuccessPath (it : UrlItem) : Option String :=
  match it.fetched with
  | .error _ => none
  | .ok _ =>
    match (read_data it.dec (pyBasename it.url) []).table, it.load with
    | some _, none => some (urlDbPathOf it)
    | _, _ => none

theorem runUrlLoop_cons (it : UrlItem) (t : List UrlItem) (s : Session) :
    runUrlLoop (it :: t) s = runUrlLoop t (url_step s it) := rfl

theorem url_step_db_paths (s : Session) (it : UrlItem) :
    (url_step s it).db_paths = s.db_paths ++ (urlSuccessPath it).toList := by
  simp only [url_step, urlSuccessPath]
  cases hf : it.fetched with
  | error e => simp
  | ok u =>
    have htab := (read_data_fs_inv it.dec (pyBasename it.url) s.fs []).1
    simp only [htab]
    cases h1 : (read_data it.dec (pyBasename it.url) []).table with
    | none => simp
    | some df =>
      cases hl : it.load with
      | none => simp [create_sqlite_db_from_dataframe]
      | some e => simp [create_sqlite_db_from_dataframe]

theorem runUrlLoop_db_paths (items : List UrlItem) (s : Session) :
    (runUrlLoop items s).db_paths = s.db_paths ++ items.filterMap urlSuccessPath := by
  induction items generalizing s with
  | nil => simp [runUrlLoop]
  | cons it t ih =>
    rw [runUrlLoop_cons, ih, url_step_db_paths]
    cases h : urlSuccessPath it with
    | none => simp [List.filterMap_cons_none h]
    | some p => simp [List.filterMap_cons_some h]

/-! ### Query-loop and cleanup helpers -/

theorem query_loop_eq_map (agent : String → String → AgentOutcome) (q : String)
    (dbs res : List String) :
    query_loop agent q dbs res = res ++ dbs.map (fun db => resultFor (agent db q)) := by
  induction dbs generalizing res with
  | nil => simp [query_loop]
  | cons d t ih =>
    rw [query_loop, ih]
    simp

theorem remove_db_paths_reverse (ps : List String) (h : ps.Nodup) :
    remove_db_paths ps ps.reverse = (none, []) := by
  induction ps with
  | nil => rfl
  | cons p t ih =>
    have hp : p ∉ t := (List.nodup_cons.mp h).1
    rw [List.reverse_cons]
    unfold remove_db_paths
    rw [if_pos (by simp)]
    rw [fsRemove_append_self (by simpa using hp)]
    exact ih (List.nodup_cons.mp h).2

/-! ### Idempotence helpers for the relational loader -/

theorem filter_ne_idem {α : Type} (l : List (String × α)) (t : String) :
    (l.filter (fun x => x.1 ≠ t)).filter (fun x => x.1 ≠ t)
      = l.filter (fun x => x.1 ≠ t) := by
  rw [List.filter_filter]
  simp [Bool.and_self]

theorem setTable_idem (dbs : SqliteState) (p t : String) (df : DataFrame) :
    setTable (setTable dbs p t df) p t df = setTable dbs p t df := by
  have htail : (setTable dbs p t df).filter (fun x => x.1 ≠ p)
      = dbs.filter (fun x => x.1 ≠ p) := by
    unfold setTable
    rw [List.filter_cons_of_neg (by simp)]
    exact filter_ne_idem dbs p
  have expand : setTable (setTable dbs p t df) p t df
      = (p, (t, df) :: (lookupTables (setTable dbs p t df) p).filter (fun x => x.1 ≠ t))
        :: (setTable dbs p t df).filter (fun x => x.1 ≠ p) := rfl
  rw [expand, lookupTables_setTable_self, List.filter_cons_of_neg (by simp),
    filter_ne_idem, htail]
  rfl

theorem fsWrite_idem (p : String) (fs : FS) :
    fsWrite p (fsWrite p fs) = fsWrite p fs := by
  by_cases h : p ∈ fs
  · simp [fsWrite, h]
  · rw [fsWrite_not_mem h]
    simp [fsWrite]

/-! ### Claim theorems -/

/-- Claim C1 (code bug): on an `.xpt` input for which both the
`pyreadstat` reader and the `sas7bdat` fallback reader fail, `read_data`
returns no table and reports one combined error naming both underlying
failures — but, contrary to the claim and to the documented contract, the
temporary file `temp_<filename>` written by the fallback path REMAINS on
disk: `os.remove(temp_xpt_path)` (src/Text2sql.py line 53) runs only on
the secondary reader's success path, so the error path leaks the file. -/
theorem read_data_xpt_both_fail_leaves_temp_file :
    read_data ⟨.error "ce", .error "xe", .error "PE", .error "SE"⟩ "bad.xpt" []
      = ⟨none,
         ["Error reading XPT file bad.xpt: pyreadstat error: PE, sas7bdat error: SE"],
         ["temp_bad.xpt"]⟩ ∧
    "temp_bad.xpt" ∈
      (read_data ⟨.error "ce", .error "xe", .error "PE", .error "SE"⟩ "bad.xpt" []).fs :=
  ⟨by decide, by decide⟩

/-- Claim C2: loading the same Decoded Table twice through
`create_sqlite_db_from_dataframe` with the same database path and table
name is idempotent: a second successful load leaves the SQLite state and
the filesystem exactly as the first load left them, and the target table
then holds the DataFrame's contents exactly once (`if_exists="replace"`
semantics: replaced, not appended), so the store reflects the most
recently loaded table for that name. -/
theorem create_db_idempotent (df : DataFrame) (p t : String)
    (sql : SqliteState) (fs : FS) :
    (create_sqlite_db_from_dataframe df p t none
        (create_sqlite_db_from_dataframe df p t none sql fs).sql
        (create_sqlite_db_from_dataframe df p t none sql fs).fs).sql
      = (create_sqlite_db_from_dataframe df p t none sql fs).sql ∧
    (create_sqlite_db_from_dataframe df p t none
        (create_sqlite_db_from_dataframe df p t none sql fs).sql
        (create_sqlite_db_from_dataframe df p t none sql fs).fs).fs
      = (create_sqlite_db_from_dataframe df p t none sql fs).fs ∧
    (lookupTables
        (create_sqlite_db_from_dataframe df p t none
          (create_sqlite_db_from_dataframe df p t none sql fs).sql
          (create_sqlite_db_from_dataframe df p t none sql fs).fs).sql p).filter
        (fun x => x.1 = t)
      = [(t, df)] := by
  refine ⟨setTable_idem sql p t df, fsWrite_idem p fs, ?_⟩
  show (lookupTables (setTable (setTable sql p t df) p t df) p).filter
      (fun x => x.1 = t) = [(t, df)]
  rw [setTable_idem, lookupTables_setTable_self,
    List.filter_cons_of_pos (by simp), List.filter_filter]
  rw [List.filter_eq_nil_iff.mpr ?_]
  · intro a _
    by_cases h : a.1 = t <;> simp [h]

/-- Claim C4: for every file name that ends in none of `.csv`, `.xlsx`,
`.xpt` (the source dispatches on `str.endswith`), `read_data` fails with
the unsupported-format error — the raised
`ValueError("Unsupported file format.")` is caught by the outer handler
and displayed, the spec's `UnsupportedFormatError` — and yields no
Decoded Table; the filesystem is untouched. -/
theorem read_data_unsupported (d : Decoders) (filename : String) (fs : FS)
    (h1 : pyEndsWith filename ".csv" = false)
    (h2 : pyEndsWith filename ".xlsx" = false)
    (h3 : pyEndsWith filename ".xpt" = false) :
    read_data d filename fs
      = ⟨none, ["Error reading file " ++ filename ++ ": Unsupported file format."],
         fs⟩ := by
  simp [read_data, h1, h2, h3]

/-- Concrete instance of `read_data_unsupported` at the file name
`report.pdf`. -/
theorem read_data_unsupported_witness :
    read_data ⟨.error "e", .error "e", .error "e", .error "e"⟩ "report.pdf" []
      = ⟨none, ["Error reading file " ++ "report.pdf" ++ ": Unsupported file format."],
         []⟩ :=
  read_data_unsupported ⟨.error "e", .error "e", .error "e", .error "e"⟩
    "report.pdf" [] (by decide) (by decide) (by decide)

/-- Claim C5: `create_sqlite_db_from_dataframe` never raises past its
boundary: whatever the internal `sqlite3`/`to_sql` outcome, it returns a
boolean result — `true` exactly when the internal write succeeded — and on
any internal failure it reports the error via `st.error` and returns
`false`, leaving the SQLite and filesystem state unchanged. -/
theorem create_db_never_raises (df : DataFrame) (p t : String)
    (outcome : Option String) (sql : SqliteState) (fs : FS) :
    ((create_sqlite_db_from_dataframe df p t outcome sql fs).ok = true
        ↔ outcome = none) ∧
    (∀ e, outcome = some e →
      create_sqlite_db_from_dataframe df p t outcome sql fs
        = ⟨false, ["Error creating database: " ++ e], sql, fs⟩) := by
  cases outcome with
  | none =>
    exact ⟨by simp [create_sqlite_db_from_dataframe], by intro e h; cases h⟩
  | some e =>
    constructor
    · simp [create_sqlite_db_from_dataframe]
    · intro e' h
      cases h
      rfl

/-- Concrete instance of `create_db_never_raises` on a failing write. -/
theorem create_db_never_raises_witness :
    create_sqlite_db_from_dataframe ⟨["id"], []⟩ "d.db" "d" (some "disk full") [] []
      = ⟨false, ["Error creating database: " ++ "disk full"], [], []⟩ :=
  (create_db_never_raises ⟨["id"], []⟩ "d.db" "d" (some "disk full") [] []).2
    "disk full" rfl

/-- Claim C3 counterexample: the empty path input does not exist
(`os.path.exists("")` is false), yet the folder branch raises no
invalid-path error at all — the truthiness guard `elif folder_path:`
(src/Text2sql.py line 155) makes the empty input do nothing — refuting
"for every path that does not exist ... fails with InvalidPathError". -/
theorem folder_branch_empty_path_no_error :
    folder_branch "" ⟨false, false, []⟩ = FolderOutcome.noInput ∧
    isInvalidPath (folder_branch "" ⟨false, false, []⟩) = false := by
  decide

/-- Claim C3 (amended): for every NON-EMPTY path that does not exist or is
not a directory, the folder branch fails with the invalid-path error; for
every non-empty existing directory it returns one descriptor per entry
matching the `.csv`/`.xlsx`/`.xpt` filter (silently skipping the rest),
and zero matches yield zero descriptors and the non-fatal
no-supported-files warning, never an exception.  (The empty path input is
falsy in Python and is ignored without any error.) -/
theorem folder_branch_spec :
    (∀ (p : String) (info : FolderInfo), p ≠ "" →
      (info.pathExists = false ∨ info.pathIsDir = false) →
      folder_branch p info = FolderOutcome.invalidPath "Invalid folder path.") ∧
    (∀ (p : String) (info : FolderInfo), p ≠ "" →
      info.pathExists = true → info.pathIsDir = true →
      ((info.entries.filter isSupportedName = [] →
          folder_branch p info
            = FolderOutcome.noFiles "No supported files found in the specified folder.") ∧
       (info.entries.filter isSupportedName ≠ [] →
          folder_branch p info
            = FolderOutcome.files (info.entries.filter isSupportedName)))) := by
  constructor
  · intro p info hp hbad
    have hp' : (p != "") = true := by simp [hp]
    rcases hbad with h | h
    · simp [folder_branch, hp', h]
    · simp [folder_branch, hp', h]
  · intro p info hp hex hdir
    have hp' : (p != "") = true := by simp [hp]
    constructor
    · intro hempty
      simp [folder_branch, hp', hex, hdir, List.isEmpty_iff, hempty]
    · intro hne
      simp [folder_branch, hp', hex, hdir, List.isEmpty_iff, hne]

/-- Concrete instance of `folder_branch_spec`: a non-empty, non-existing
path gets the invalid-path error. -/
theorem folder_branch_spec_witness :
    folder_branch "/data" ⟨false, true, []⟩
      = FolderOutcome.invalidPath "Invalid folder path." :=
  folder_branch_spec.1 "/data" ⟨false, true, []⟩ (by decide) (Or.inl rfl)

/-- Claim C8: the query phase runs the one natural-language query against
each loaded database in `db_paths` order, one at a time; each collected
result is a function of that database path (and the query) alone, and the
`results` list displayed afterwards holds exactly one entry per database
in the same source order — results are collected, never merged or
cross-joined across databases. -/
theorem query_phase_in_source_order (agent : String → String → AgentOutcome)
    (query : String) (db_paths : List String) :
    query_loop agent query db_paths []
      = db_paths.map (fun db_path => resultFor (agent db_path query)) := by
  rw [query_loop_eq_map]
  simp

/-! ### Concrete sample sessions for witnesses and counterexamples -/

/-- Sample decoded table with header `id,name` and two data rows. -/
def dfA : DataFrame := ⟨["id", "name"], [["1", "x"], ["2", "y"]]⟩

/-- A second, different sample table. -/
def dfB : DataFrame := ⟨["id"], [["9"]]⟩

/-- A third sample table. -/
def dfC : DataFrame := ⟨["c"], [["0"]]⟩

/-- Decoder oracle for a well-formed CSV input decoding to `df`. -/
def csvDec (df : DataFrame) : Decoders :=
  ⟨.ok df, .error "unused", .error "unused", .error "unused"⟩

/-- Decoder oracle for a well-formed XLSX input decoding to `df`. -/
def xlsxDec (df : DataFrame) : Decoders :=
  ⟨.error "unused", .ok df, .error "unused", .error "unused"⟩

/-- Upload `a.csv`, decoding to `dfA`, load succeeding. -/
def fileACsv : UploadFile := ⟨"a.csv", csvDec dfA, none⟩

/-- Upload `a.xlsx` (same basename as `a.csv`), decoding to `dfB`. -/
def fileAXlsx : UploadFile := ⟨"a.xlsx", xlsxDec dfB, none⟩

/-- Upload `b.csv`, decoding to `dfC`. -/
def fileBCsv : UploadFile := ⟨"b.csv", csvDec dfC, none⟩

/-- Claim C7 counterexample: two successfully ingested uploads with the
same basename (`a.csv` decoding to `dfA`, then `a.xlsx` decoding to
`dfB`) collide on the single database `temp_a.db`: after ingestion its
one table `a` holds `dfB`, not `dfA`, so "rows and columns equal the
decoded file's data" fails for the earlier file `a.csv` even though it
was successfully ingested. -/
theorem upload_collision_overwrites :
    decodedDfOf fileACsv = some dfA ∧
    lookupTables (runUploadLoop [fileACsv, fileAXlsx] emptySession).sql "temp_a.db"
      = [("a", dfB)] ∧
    dfA ≠ dfB := by
  decide

/-- Claim C9 counterexample: after the happy-path upload session of
`a.csv`, `a.xlsx`, `b.csv`, the cleanup loop iterates
`db_paths = [temp_a.db, temp_a.db, temp_b.db]`; the second `os.remove`
hits the already-deleted `temp_a.db`, raises `FileNotFoundError`
uncaught, and the loop aborts before `temp_b.db` is ever attempted:
`temp_b.db` remains on disk after the session. -/
theorem upload_collision_cleanup_leaves_db :
    (remove_db_paths
        (runUploadLoop [fileACsv, fileAXlsx, fileBCsv] emptySession).db_paths
        (runUploadLoop [fileACsv, fileAXlsx, fileBCsv] emptySession).fs).1
      = some ("FileNotFoundError: " ++ "temp_a.db") ∧
    "temp_b.db" ∈
      (remove_db_paths
        (runUploadLoop [fileACsv, fileAXlsx, fileBCsv] emptySession).db_paths
        (runUploadLoop [fileACsv, fileAXlsx, fileBCsv] emptySession).fs).2 := by
  decide

/-- Claim C9 (amended): at the end of the happy path of an upload session
whose files have pairwise-distinct database paths, no temporary
uploaded-file copy is still on disk (each iteration removes its copy
unconditionally, src/Text2sql.py line 118), and the final cleanup loop
(lines 188-189) deletes every generated database file and completes
without error, leaving nothing the session created on disk.  Without the
distinctness proviso the cleanup loop raises `FileNotFoundError` on a
duplicated path and later database files remain (see the
counterexample). -/
theorem upload_session_cleanup (files : List UploadFile)
    (hhappy : ∀ f ∈ files, happyFile f = true)
    (hnodup : (files.map dbPathOf).Nodup) :
    (∀ f ∈ files, tmpPathOf f ∉ (runUploadLoop files emptySession).fs) ∧
    remove_db_paths (runUploadLoop files emptySession).db_paths
        (runUploadLoop files emptySession).fs = (none, []) := by
  obtain ⟨hfs, hdb, herr, hwarn, hlook, hpres⟩ :=
    runUploadLoop_happy_spec files emptySession hhappy hnodup
      (by intro f hf; exact List.not_mem_nil _)
      (by intro x hx; exact absurd hx (List.not_mem_nil _))
      (by intro f hf; rfl)
  have hfs' : (runUploadLoop files emptySession).fs
      = (files.map dbPathOf).reverse := by
    rw [hfs]
    simp [emptySession]
  have hdb' : (runUploadLoop files emptySession).db_paths
      = files.map dbPathOf := by
    rw [hdb]
    simp [emptySession]
  constructor
  · intro f hf hmem
    rw [hfs'] at hmem
    rw [List.mem_reverse] at hmem
    obtain ⟨g, hg, heq⟩ := List.mem_map.mp hmem
    exact supported_ne_db (dbPath_ends_db g)
      (supported_tmp (happy_supported (hhappy f hf))) heq.symm
  · rw [hfs', hdb']
    exact remove_db_paths_reverse (files.map dbPathOf) hnodup

/-- Concrete instance of `upload_session_cleanup` on the collision-free
session `a.csv`, `b.csv`: cleanup succeeds and empties the disk. -/
theorem upload_session_cleanup_witness :
    remove_db_paths (runUploadLoop [fileACsv, fileBCsv] emptySession).db_paths
        (runUploadLoop [fileACsv, fileBCsv] emptySession).fs = (none, []) :=
  (upload_session_cleanup [fileACsv, fileBCsv] (by decide) (by decide)).2

/-! ### Folder and GitHub ingestion loops, and per-item error reporting -/

/-- One entry of the folder branch's ingestion loop: the entry name
together with the outcomes of the external calls made while processing it
(`read_data` is called on the joined path but dispatches on the entry
name; the readers' outcomes are the `dec` oracle, the SQLite write's the
`load` oracle).  The program runs this loop over the `supported_files`
filter result (src/Text2sql.py lines 144-152). -/
structure FolderFile where
  name : String
  dec : Decoders
  load : Option String
deriving DecidableEq

/-- The database path `f"{os.path.splitext(file)[0]}.db"` of a folder
entry (src/Text2sql.py line 148). -/
def folderDbPathOf (f : FolderFile) : String :=
  splitextBase f.name ++ ".db"

/-- One iteration of the folder ingestion loop (src/Text2sql.py lines
146-152): decode the entry and, on a decoded table, attempt the SQLite
load, appending the database path on success. -/
def folder_file_step (s : Session) (f : FolderFile) : Session :=
  let r := read_data f.dec f.name s.fs
  match r.table with
  | some df =>
    let lr := create_sqlite_db_from_dataframe df (folderDbPathOf f)
      (splitextBase f.name) f.load s.sql r.fs
    if lr.ok then
      ⟨lr.fs, lr.sql, s.db_paths ++ [folderDbPathOf f],
       s.errors ++ r.errors ++ lr.errors, s.warnings⟩
    else
      ⟨lr.fs, lr.sql, s.db_paths,
       s.errors ++ r.errors ++ lr.errors, s.warnings⟩
  | none => ⟨r.fs, s.sql, s.db_paths, s.errors ++ r.errors, s.warnings⟩

/-- The folder branch's ingestion loop over the matched entries
(src/Text2sql.py lines 146-152). -/
def runFolderLoop (files : List FolderFile) (s : Session) : Session :=
  files.foldl folder_file_step s

/-- The hard-coded file names fetched by the GitHub branch
(src/Text2sql.py line 20). -/
def DEFAULT_FILES : List String := ["AE.csv", "DM.csv", "LB.csv", "IE.csv"]

/-- Shallow embedding of `download_file_from_github` (src/Text2sql.py
lines 22-31): the `requests.get` outcome is the `outcome` parameter; on a
raised request exception the function reports the error and returns
`None`, otherwise it returns the fetched stream (abstracted to `Unit`). -/
def download_file_from_github (filename : String) (outcome : Except String Unit) :
    Option Unit × List String :=
  match outcome with
  | .ok u => (some u, [])
  | .error e => (none, ["Error downloading " ++ filename ++ ": " ++ e])

/-- One file of the GitHub branch: the file name (drawn from
`DEFAULT_FILES` in the program) together with the outcomes of its
download, its decoders, and its SQLite write. -/
structure GithubFile where
  name : String
  download : Except String Unit
  dec : Decoders
  load : Option String
deriving DecidableEq

/-- The database path `f"{os.path.splitext(filename)[0]}.db"` of a GitHub
file (src/Text2sql.py line 162). -/
def githubDbPathOf (g : GithubFile) : String :=
  splitextBase g.name ++ ".db"

/-- One iteration of the GitHub loop (src/Text2sql.py lines 159-166):
download the file — a failure is reported inside
`download_file_from_github` and the `if file_like_object:` guard skips
the file — then decode and, on a decoded table, attempt the SQLite load,
appending the database path on success. -/
def github_step (s : Session) (g : GithubFile) : Session :=
  let dl := download_file_from_github g.name g.download
  match dl.1 with
  | none => ⟨s.fs, s.sql, s.db_paths, s.errors ++ dl.2, s.warnings⟩
  | some _ =>
    let r := read_data g.dec g.name s.fs
    match r.table with
    | some df =>
      let lr := create_sqlite_db_from_dataframe df (githubDbPathOf g)
        (splitextBase g.name) g.load s.sql r.fs
      if lr.ok then
        ⟨lr.fs, lr.sql, s.db_paths ++ [githubDbPathOf g],
         s.errors ++ dl.2 ++ r.errors ++ lr.errors, s.warnings⟩
      else
        ⟨lr.fs, lr.sql, s.db_paths,
         s.errors ++ dl.2 ++ r.errors ++ lr.errors, s.warnings⟩
    | none => ⟨r.fs, s.sql, s.db_paths, s.errors ++ dl.2 ++ r.errors, s.warnings⟩

/-- The GitHub branch's loop over its files (src/Text2sql.py lines
158-166; the program instantiates the names from `DEFAULT_FILES`). -/
def runGithubLoop (items : List GithubFile) (s : Session) : Session :=
  items.foldl github_step s

/-- The `st.error` messages one URL line's loop iteration reports: a
failed fetch is reported per-URL (src/Text2sql.py lines 136-137), a
failed decode by `read_data`, a failed load by
`create_sqlite_db_from_dataframe`. -/
def urlErrorsOf (it : UrlItem) : List String :=
  match it.fetched with
  | .error e => ["Error loading file from " ++ it.url ++ ": " ++ e]
  | .ok _ =>
    (read_data it.dec (pyBasename it.url) []).errors ++
    (match (read_data it.dec (pyBasename it.url) []).table, it.load with
     | some _, some e => ["Error creating database: " ++ e]
     | _, _ => [])

/-- The `st.error` messages one folder entry's loop iteration reports. -/
def folderErrorsOf (f : FolderFile) : List String :=
  (read_data f.dec f.name []).errors ++
  (match (read_data f.dec f.name []).table, f.load with
   | some _, some e => ["Error creating database: " ++ e]
   | _, _ => [])

/-- The `st.error` messages one GitHub file's loop iteration reports,
including the per-file download failure. -/
def githubErrorsOf (g : GithubFile) : List String :=
  match g.download with
  | .error e => ["Error downloading " ++ g.name ++ ": " ++ e]
  | .ok _ =>
    (read_data g.dec g.name []).errors ++
    (match (read_data g.dec g.name []).table, g.load with
     | some _, some e => ["Error creating database: " ++ e]
     | _, _ => [])

/-- The database path a folder entry contributes to `db_paths`, when its
decode returns a table and its SQLite write succeeds. -/
def folderSuccessPath (f : FolderFile) : Option String :=
  match (read_data f.dec f.name []).table, f.load with
  | some _, none => some (folderDbPathOf f)
  | _, _ => none

/-- The database path a GitHub file contributes to `db_paths`, when its
download, decode, and SQLite write all succeed. -/
def githubSuccessPath (g : GithubFile) : Option String :=
  match g.download with
  | .error _ => none
  | .ok _ =>
    match (read_data g.dec g.name []).table, g.load with
    | some _, none => some (githubDbPathOf g)
    | _, _ => none

/-! ### Per-item lemmas for the URL, folder and GitHub loops -/

theorem url_step_errors (s : Session) (it : UrlItem) :
    (url_step s it).errors = s.errors ++ urlErrorsOf it := by
  simp only [url_step, urlErrorsOf]
  cases hf : it.fetched with
  | error e => simp
  | ok u =>
    have htab := (read_data_fs_inv it.dec (pyBasename it.url) s.fs []).1
    have herr := (read_data_fs_inv it.dec (pyBasename it.url) s.fs []).2
    simp only [htab, herr]
    cases h1 : (read_data it.dec (pyBasename it.url) []).table with
    | none => simp
    | some df =>
      cases hl : it.load with
      | none => simp [create_sqlite_db_from_dataframe]
      | some e => simp [create_sqlite_db_from_dataframe]

theorem runUrlLoop_errors (items : List UrlItem) (s : Session) :
    (runUrlLoop items s).errors = s.errors ++ items.flatMap urlErrorsOf := by
  induction items generalizing s with
  | nil => simp [runUrlLoop]
  | cons it t ih =>
    rw [runUrlLoop_cons, ih, url_step_errors]
    simp

theorem runFolderLoop_cons (f : FolderFile) (t : List FolderFile) (s : Session) :
    runFolderLoop (f :: t) s = runFolderLoop t (folder_file_step s f) := rfl

theorem folder_step_db_paths (s : Session) (f : FolderFile) :
    (folder_file_step s f).db_paths = s.db_paths ++ (folderSuccessPath f).toList := by
  simp only [folder_file_step, folderSuccessPath]
  have htab := (read_data_fs_inv f.dec f.name s.fs []).1
  simp only [htab]
  cases h1 : (read_data f.dec f.name []).table with
  | none => simp
  | some df =>
    cases hl : f.load with
    | none => simp [create_sqlite_db_from_dataframe]
    | some e => simp [create_sqlite_db_from_dataframe]

theorem folder_step_errors (s : Session) (f : FolderFile) :
    (folder_file_step s f).errors = s.errors ++ folderErrorsOf f := by
  simp only [folder_file_step, folderErrorsOf]
  have htab := (read_data_fs_inv f.dec f.name s.fs []).1
  have herr := (read_data_fs_inv f.dec f.name s.fs []).2
  simp only [htab, herr]
  cases h1 : (read_data f.dec f.name []).table with
  | none => simp
  | some df =>
    cases hl : f.load with
    | none => simp [create_sqlite_db_from_dataframe]
    | some e => simp [create_sqlite_db_from_dataframe]

theorem runFolderLoop_db_paths (files : List FolderFile) (s : Session) :
    (runFolderLoop files s).db_paths
      = s.db_paths ++ files.filterMap folderSuccessPath := by
  induction files generalizing s with
  | nil => simp [runFolderLoop]
  | cons f t ih =>
    rw [runFolderLoop_cons, ih, folder_step_db_paths]
    cases h : folderSuccessPath f with
    | none => simp [List.filterMap_cons_none h]
    | some p => simp [List.filterMap_cons_some h]

theorem runFolderLoop_errors (files : List FolderFile) (s : Session) :
    (runFolderLoop files s).errors = s.errors ++ files.flatMap folderErrorsOf := by
  induction files generalizing s with
  | nil => simp [runFolderLoop]
  | cons f t ih =>
    rw [runFolderLoop_cons, ih, folder_step_errors]
    simp

theorem runGithubLoop_cons (g : GithubFile) (t : List GithubFile) (s : Session) :
    runGithubLoop (g :: t) s = runGithubLoop t (github_step s g) := rfl

theorem github_step_db_paths (s : Session) (g : GithubFile) :
    (github_step s g).db_paths = s.db_paths ++ (githubSuccessPath g).toList := by
  simp only [github_step, githubSuccessPath, download_file_from_github]
  cases hd : g.download with
  | error e => simp
  | ok u =>
    have htab := (read_data_fs_inv g.dec g.name s.fs []).1
    simp only [htab]
    cases h1 : (read_data g.dec g.name []).table with
    | none => simp
    | some df =>
      cases hl : g.load with
      | none => simp [create_sqlite_db_from_dataframe]
      | some e => simp [create_sqlite_db_from_dataframe]

theorem github_step_errors (s : Session) (g : GithubFile) :
    (github_step s g).errors = s.errors ++ githubErrorsOf g := by
  simp only [github_step, githubErrorsOf, download_file_from_github]
  cases hd : g.download with
  | error e => simp
  | ok u =>
    have htab := (read_data_fs_inv g.dec g.name s.fs []).1
    have herr := (read_data_fs_inv g.dec g.name s.fs []).2
    simp only [htab, herr]
    cases h1 : (read_data g.dec g.name []).table with
    | none => simp
    | some df =>
      cases hl : g.load with
      | none => simp [create_sqlite_db_from_dataframe]
      | some e => simp [create_sqlite_db_from_dataframe]

theorem runGithubLoop_db_paths (items : List GithubFile) (s : Session) :
    (runGithubLoop items s).db_paths
      = s.db_paths ++ items.filterMap githubSuccessPath := by
  induction items generalizing s with
  | nil => simp [runGithubLoop]
  | cons g t ih =>
    rw [runGithubLoop_cons, ih, github_step_db_paths]
    cases h : githubSuccessPath g with
    | none => simp [List.filterMap_cons_none h]
    | some p => simp [List.filterMap_cons_some h]

theorem runGithubLoop_errors (items : List GithubFile) (s : Session) :
    (runGithubLoop items s).errors = s.errors ++ items.flatMap githubErrorsOf := by
  induction items generalizing s with
  | nil => simp [runGithubLoop]
  | cons g t ih =>
    rw [runGithubLoop_cons, ih, github_step_errors]
    simp

/-! ### Filesystem effect of `read_data` on database paths -/

theorem mem_of_mem_fsRemove {x p : String} {fs : FS} (h : x ∈ fsRemove p fs) :
    x ∈ fs := by
  induction fs with
  | nil => cases h
  | cons q rest ih =>
    by_cases hq : q = p
    · subst hq
      rw [fsRemove_cons_self] at h
      exact List.mem_cons_of_mem _ h
    · rw [fsRemove_cons_ne hq] at h
      rcases List.mem_cons.mp h with rfl | h'
      · exact List.mem_cons_self _ _
      · exact List.mem_cons_of_mem _ (ih h')

theorem mem_fsRemove_iff {x p : String} {fs : FS} (hne : x ≠ p) :
    x ∈ fsRemove p fs ↔ x ∈ fs :=
  ⟨mem_of_mem_fsRemove, fun h => mem_fsRemove h hne⟩

theorem ends_db_ne_ends_xpt {q t : String} (hq : pyEndsWith q ".db" = true)
    (ht : pyEndsWith t ".xpt" = true) : q ≠ t := by
  intro h
  subst h
  have hfalse := pyEndsWith_disjoint (s := q) (a := ".db") (b := ".xpt")
    (by decide) (by decide) (by decide) hq
  rw [ht] at hfalse
  exact Bool.noConfusion hfalse

/-- The only path `read_data` ever writes or removes is `temp_<filename>`
in the `.xpt` branch, a path ending in `.xpt`; so presence of any
`.db`-suffixed path is untouched. -/
theorem read_data_fs_mem {q : String} (hq : pyEndsWith q ".db" = true)
    (d : Decoders) (n : String) (fs : FS) :
    (q ∈ (read_data d n fs).fs ↔ q ∈ fs) := by
  unfold read_data
  cases h1 : pyEndsWith n ".csv"
  · cases h2 : pyEndsWith n ".xlsx"
    · cases h3 : pyEndsWith n ".xpt"
      · simp [h1, h2, h3]
      · simp only [h1, h2, h3]
        cases d.read_xport with
        | ok df => simp
        | error pe =>
          have htmp : q ≠ "temp_" ++ n :=
            ends_db_ne_ends_xpt hq (pyEndsWith_append_left _ h3)
          cases d.sas7bdat_read with
          | ok df => simp [mem_fsRemove_iff htmp, mem_fsWrite, htmp]
          | error se => simp [mem_fsWrite, htmp]
    · simp only [h1, h2]
      cases d.read_excel <;> simp
  · simp only [h1]
    cases d.read_csv <;> simp

/-! ### General per-step effect on the SQLite state and on database-path
membership, for arbitrary (mixed) batches -/

theorem upload_step_sql (s : Session) (g : UploadFile) :
    (upload_step s g).sql
      = match uploadSuccessPath g with
        | some p => setTable s.sql p (splitextBase g.name)
            ((decodedDfOf g).getD ⟨[], []⟩)
        | none => s.sql := by
  simp only [upload_step, uploadSuccessPath, decodedDfOf]
  have htab := (read_data_fs_inv g.dec g.name (fsWrite (tmpPathOf g) s.fs) []).1
  simp only [htab]
  cases h1 : (read_data g.dec g.name []).table with
  | none => simp
  | some df =>
    cases hl : g.load with
    | none => simp [create_sqlite_db_from_dataframe]
    | some e => simp [create_sqlite_db_from_dataframe]

theorem upload_step_fs_mem {q : String} (hq : pyEndsWith q ".db" = true)
    (s : Session) (g : UploadFile) (hgname : isSupportedName g.name = true) :
    (q ∈ (upload_step s g).fs ↔ (q ∈ s.fs ∨ uploadSuccessPath g = some q)) := by
  have htmq : q ≠ tmpPathOf g := fun h =>
    supported_ne_db hq (supported_tmp hgname) h.symm
  simp only [upload_step, uploadSuccessPath]
  have htab := (read_data_fs_inv g.dec g.name (fsWrite (tmpPathOf g) s.fs) []).1
  simp only [htab]
  cases h1 : (read_data g.dec g.name []).table with
  | none =>
    simp only []
    rw [mem_fsRemove_iff htmq, read_data_fs_mem hq, mem_fsWrite]
    simp [htmq]
  | some df =>
    cases hl : g.load with
    | none =>
      simp [create_sqlite_db_from_dataframe, mem_fsRemove_iff htmq,
        mem_fsWrite, read_data_fs_mem hq, htmq, or_comm, eq_comm]
    | some e =>
      simp [create_sqlite_db_from_dataframe, mem_fsRemove_iff htmq,
        mem_fsWrite, read_data_fs_mem hq, htmq]

theorem url_step_sql (s : Session) (it : UrlItem) :
    (url_step s it).sql
      = match urlSuccessPath it with
        | some p => setTable s.sql p (splitextBase (pyBasename it.url))
            (((read_data it.dec (pyBasename it.url) []).table).getD ⟨[], []⟩)
        | none => s.sql := by
  simp only [url_step, urlSuccessPath]
  cases hf : it.fetched with
  | error e => simp
  | ok u =>
    have htab := (read_data_fs_inv it.dec (pyBasename it.url) s.fs []).1
    simp only [htab]
    cases h1 : (read_data it.dec (pyBasename it.url) []).table with
    | none => simp
    | some df =>
      cases hl : it.load with
      | none => simp [create_sqlite_db_from_dataframe]
      | some e => simp [create_sqlite_db_from_dataframe]

theorem url_step_fs_mem {q : String} (hq : pyEndsWith q ".db" = true)
    (s : Session) (it : UrlItem) :
    (q ∈ (url_step s it).fs ↔ (q ∈ s.fs ∨ urlSuccessPath it = some q)) := by
  simp only [url_step, urlSuccessPath]
  cases hf : it.fetched with
  | error e => simp
  | ok u =>
    have htab := (read_data_fs_inv it.dec (pyBasename it.url) s.fs []).1
    simp only [htab]
    cases h1 : (read_data it.dec (pyBasename it.url) []).table with
    | none =>
      simp only []
      rw [read_data_fs_mem hq]
      simp
    | some df =>
      cases hl : it.load with
      | none =>
        simp [create_sqlite_db_from_dataframe, mem_fsWrite,
          read_data_fs_mem hq, or_comm, eq_comm]
      | some e =>
        simp [create_sqlite_db_from_dataframe, read_data_fs_mem hq]

theorem folder_step_sql (s : Session) (f : FolderFile) :
    (folder_file_step s f).sql
      = match folderSuccessPath f with
        | some p => setTable s.sql p (splitextBase f.name)
            (((read_data f.dec f.name []).table).getD ⟨[], []⟩)
        | none => s.sql := by
  simp only [folder_file_step, folderSuccessPath]
  have htab := (read_data_fs_inv f.dec f.name s.fs []).1
  simp only [htab]
  cases h1 : (read_data f.dec f.name []).table with
  | none => simp
  | some df =>
    cases hl : f.load with
    | none => simp [create_sqlite_db_from_dataframe]
    | some e => simp [create_sqlite_db_from_dataframe]

theorem folder_step_fs_mem {q : String} (hq : pyEndsWith q ".db" = true)
    (s : Session) (f : FolderFile) :
    (q ∈ (folder_file_step s f).fs ↔ (q ∈ s.fs ∨ folderSuccessPath f = some q)) := by
  simp only [folder_file_step, folderSuccessPath]
  have htab := (read_data_fs_inv f.dec f.name s.fs []).1
  simp only [htab]
  cases h1 : (read_data f.dec f.name []).table with
  | none =>
    simp only []
    rw [read_data_fs_mem hq]
    simp
  | some df =>
    cases hl : f.load with
    | none =>
      simp [create_sqlite_db_from_dataframe, mem_fsWrite,
        read_data_fs_mem hq, or_comm, eq_comm]
    | some e =>
      simp [create_sqlite_db_from_dataframe, read_data_fs_mem hq]

theorem github_step_sql (s : Session) (g : GithubFile) :
    (github_step s g).sql
      = match githubSuccessPath g with
        | some p => setTable s.sql p (splitextBase g.name)
            (((read_data g.dec g.name []).table).getD ⟨[], []⟩)
        | none => s.sql := by
  simp only [github_step, githubSuccessPath, download_file_from_github]
  cases hd : g.download with
  | error e => simp
  | ok u =>
    have htab := (read_data_fs_inv g.dec g.name s.fs []).1
    simp only [htab]
    cases h1 : (read_data g.dec g.name []).table with
    | none => simp
    | some df =>
      cases hl : g.load with
      | none => simp [create_sqlite_db_from_dataframe]
      | some e => simp [create_sqlite_db_from_dataframe]

theorem github_step_fs_mem {q : String} (hq : pyEndsWith q ".db" = true)
    (s : Session) (g : GithubFile) :
    (q ∈ (github_step s g).fs ↔ (q ∈ s.fs ∨ githubSuccessPath g = some q)) := by
  simp only [github_step, githubSuccessPath, download_file_from_github]
  cases hd : g.download with
  | error e => simp
  | ok u =>
    have htab := (read_data_fs_inv g.dec g.name s.fs []).1
    simp only [htab]
    cases h1 : (read_data g.dec g.name []).table with
    | none =>
      simp only []
      rw [read_data_fs_mem hq]
      simp
    | some df =>
      cases hl : g.load with
      | none =>
        simp [create_sqlite_db_from_dataframe, mem_fsWrite,
          read_data_fs_mem hq, or_comm, eq_comm]
      | some e =>
        simp [create_sqlite_db_from_dataframe, read_data_fs_mem hq]

/-! ### Loop-level lemmas for arbitrary (mixed) batches -/

theorem runUploadLoop_mem_db {q : String} (hq : pyEndsWith q ".db" = true) :
    ∀ (files : List UploadFile) (s : Session),
    (∀ f ∈ files, isSupportedName f.name = true) →
    (q ∈ (runUploadLoop files s).fs
      ↔ (q ∈ s.fs ∨ ∃ f, f ∈ files ∧ uploadSuccessPath f = some q)) := by
  intro files
  induction files with
  | nil =>
    intro s _
    simp [runUploadLoop]
  | cons g t ih =>
    intro s hsupp
    rw [runUploadLoop_cons,
      ih (upload_step s g) (fun f hf => hsupp f (List.mem_cons_of_mem g hf)),
      upload_step_fs_mem hq s g (hsupp g (List.mem_cons_self g t))]
    constructor
    · rintro ((h | h) | ⟨f, hf, hsf⟩)
      · exact Or.inl h
      · exact Or.inr ⟨g, List.mem_cons_self g t, h⟩
      · exact Or.inr ⟨f, List.mem_cons_of_mem g hf, hsf⟩
    · rintro (h | ⟨f, hf, hsf⟩)
      · exact Or.inl (Or.inl h)
      · rcases List.mem_cons.mp hf with rfl | hf'
        · exact Or.inl (Or.inr hsf)
        · exact Or.inr ⟨f, hf', hsf⟩

theorem runUrlLoop_mem_db {q : String} (hq : pyEndsWith q ".db" = true)
    (items : List UrlItem) (s : Session) :
    (q ∈ (runUrlLoop items s).fs
      ↔ (q ∈ s.fs ∨ ∃ it, it ∈ items ∧ urlSuccessPath it = some q)) := by
  induction items generalizing s with
  | nil => simp [runUrlLoop]
  | cons g t ih =>
    rw [runUrlLoop_cons, ih (url_step s g), url_step_fs_mem hq s g]
    constructor
    · rintro ((h | h) | ⟨f, hf, hsf⟩)
      · exact Or.inl h
      · exact Or.inr ⟨g, List.mem_cons_self g t, h⟩
      · exact Or.inr ⟨f, List.mem_cons_of_mem g hf, hsf⟩
    · rintro (h | ⟨f, hf, hsf⟩)
      · exact Or.inl (Or.inl h)
      · rcases List.mem_cons.mp hf with rfl | hf'
        · exact Or.inl (Or.inr hsf)
        · exact Or.inr ⟨f, hf', hsf⟩

theorem runFolderLoop_mem_db {q : String} (hq : pyEndsWith q ".db" = true)
    (files : List FolderFile) (s : Session) :
    (q ∈ (runFolderLoop files s).fs
      ↔ (q ∈ s.fs ∨ ∃ f, f ∈ files ∧ folderSuccessPath f = some q)) := by
  induction files generalizing s with
  | nil => simp [runFolderLoop]
  | cons g t ih =>
    rw [runFolderLoop_cons, ih (folder_file_step s g), folder_step_fs_mem hq s g]
    constructor
    · rintro ((h | h) | ⟨f, hf, hsf⟩)
      · exact Or.inl h
      · exact Or.inr ⟨g, List.mem_cons_self g t, h⟩
      · exact Or.inr ⟨f, List.mem_cons_of_mem g hf, hsf⟩
    · rintro (h | ⟨f, hf, hsf⟩)
      · exact Or.inl (Or.inl h)
      · rcases List.mem_cons.mp hf with rfl | hf'
        · exact Or.inl (Or.inr hsf)
        · exact Or.inr ⟨f, hf', hsf⟩

theorem runGithubLoop_mem_db {q : String} (hq : pyEndsWith q ".db" = true)
    (items : List GithubFile) (s : Session) :
    (q ∈ (runGithubLoop items s).fs
      ↔ (q ∈ s.fs ∨ ∃ g, g ∈ items ∧ githubSuccessPath g = some q)) := by
  induction items generalizing s with
  | nil => simp [runGithubLoop]
  | cons g t ih =>
    rw [runGithubLoop_cons, ih (github_step s g), github_step_fs_mem hq s g]
    constructor
    · rintro ((h | h) | ⟨f, hf, hsf⟩)
      · exact Or.inl h
      · exact Or.inr ⟨g, List.mem_cons_self g t, h⟩
      · exact Or.inr ⟨f, List.mem_cons_of_mem g hf, hsf⟩
    · rintro (h | ⟨f, hf, hsf⟩)
      · exact Or.inl (Or.inl h)
      · rcases List.mem_cons.mp hf with rfl | hf'
        · exact Or.inl (Or.inr hsf)
        · exact Or.inr ⟨f, hf', hsf⟩

theorem runUploadLoop_sql_preserve :
    ∀ (files : List UploadFile) (s : Session) (q : String),
    (∀ f ∈ files, uploadSuccessPath f ≠ some q) →
    lookupTables (runUploadLoop files s).sql q = lookupTables s.sql q := by
  intro files
  induction files with
  | nil => intro s q _; rfl
  | cons g t ih =>
    intro s q hq
    rw [runUploadLoop_cons, ih _ q (fun f hf => hq f (List.mem_cons_of_mem g hf)),
      upload_step_sql]
    cases hsg : uploadSuccessPath g with
    | none => rfl
    | some p =>
      have hpq : p ≠ q := fun h => hq g (List.mem_cons_self g t) (by rw [hsg, h])
      exact lookupTables_setTable_ne _ _ _ (fun h => hpq h.symm)

theorem runUrlLoop_sql_preserve :
    ∀ (items : List UrlItem) (s : Session) (q : String),
    (∀ it ∈ items, urlSuccessPath it ≠ some q) →
    lookupTables (runUrlLoop items s).sql q = lookupTables s.sql q := by
  intro items
  induction items with
  | nil => intro s q _; rfl
  | cons g t ih =>
    intro s q hq
    rw [runUrlLoop_cons, ih _ q (fun f hf => hq f (List.mem_cons_of_mem g hf)),
      url_step_sql]
    cases hsg : urlSuccessPath g with
    | none => rfl
    | some p =>
      have hpq : p ≠ q := fun h => hq g (List.mem_cons_self g t) (by rw [hsg, h])
      exact lookupTables_setTable_ne _ _ _ (fun h => hpq h.symm)

theorem runFolderLoop_sql_preserve :
    ∀ (files : List FolderFile) (s : Session) (q : String),
    (∀ f ∈ files, folderSuccessPath f ≠ some q) →
    lookupTables (runFolderLoop files s).sql q = lookupTables s.sql q := by
  intro files
  induction files with
  | nil => intro s q _; rfl
  | cons g t ih =>
    intro s q hq
    rw [runFolderLoop_cons, ih _ q (fun f hf => hq f (List.mem_cons_of_mem g hf)),
      folder_step_sql]
    cases hsg : folderSuccessPath g with
    | none => rfl
    | some p =>
      have hpq : p ≠ q := fun h => hq g (List.mem_cons_self g t) (by rw [hsg, h])
      exact lookupTables_setTable_ne _ _ _ (fun h => hpq h.symm)

theorem runGithubLoop_sql_preserve :
    ∀ (items : List GithubFile) (s : Session) (q : String),
    (∀ g ∈ items, githubSuccessPath g ≠ some q) →
    lookupTables (runGithubLoop items s).sql q = lookupTables s.sql q := by
  intro items
  induction items with
  | nil => intro s q _; rfl
  | cons g t ih =>
    intro s q hq
    rw [runGithubLoop_cons, ih _ q (fun f hf => hq f (List.mem_cons_of_mem g hf)),
      github_step_sql]
    cases hsg : githubSuccessPath g with
    | none => rfl
    | some p =>
      have hpq : p ≠ q := fun h => hq g (List.mem_cons_self g t) (by rw [hsg, h])
      exact lookupTables_setTable_ne _ _ _ (fun h => hpq h.symm)

theorem runUploadLoop_sql_success :
    ∀ (files : List UploadFile) (s : Session),
    (files.filterMap uploadSuccessPath).Nodup →
    ∀ f, f ∈ files → ∀ p, uploadSuccessPath f = some p →
    lookupTables s.sql p = [] →
    lookupTables (runUploadLoop files s).sql p
      = [(splitextBase f.name, (decodedDfOf f).getD ⟨[], []⟩)] := by
  intro files
  induction files with
  | nil =>
    intro s _ f hf
    cases hf
  | cons g t ih =>
    intro s hnodup f hf p hp hinit
    rw [runUploadLoop_cons]
    rcases List.mem_cons.mp hf with rfl | hf'
    · have hnot : ∀ h ∈ t, uploadSuccessPath h ≠ some p := by
        intro h hh heq
        rw [List.filterMap_cons_some hp] at hnodup
        exact (List.nodup_cons.mp hnodup).1 (List.mem_filterMap.mpr ⟨h, hh, heq⟩)
      rw [runUploadLoop_sql_preserve t _ p hnot]
      simp only [upload_step_sql, hp]
      rw [lookupTables_setTable_self, hinit]
      simp
    · cases hsg : uploadSuccessPath g with
      | none =>
        have hnodup' : (t.filterMap uploadSuccessPath).Nodup := by
          rwa [List.filterMap_cons_none hsg] at hnodup
        have hinit' : lookupTables (upload_step s g).sql p = [] := by
          simp only [upload_step_sql, hsg]
          exact hinit
        exact ih (upload_step s g) hnodup' f hf' p hp hinit'
      | some p' =>
        rw [List.filterMap_cons_some hsg] at hnodup
        have hp'ne : p' ≠ p := by
          intro h
          subst h
          exact (List.nodup_cons.mp hnodup).1 (List.mem_filterMap.mpr ⟨f, hf', hp⟩)
        have hinit' : lookupTables (upload_step s g).sql p = [] := by
          simp only [upload_step_sql, hsg]
          rw [lookupTables_setTable_ne _ _ _ (fun h => hp'ne h.symm)]
          exact hinit
        exact ih (upload_step s g) (List.nodup_cons.mp hnodup).2 f hf' p hp hinit'

theorem runUrlLoop_sql_success :
    ∀ (items : List UrlItem) (s : Session),
    (items.filterMap urlSuccessPath).Nodup →
    ∀ it, it ∈ items → ∀ p, urlSuccessPath it = some p →
    lookupTables s.sql p = [] →
    lookupTables (runUrlLoop items s).sql p
      = [(splitextBase (pyBasename it.url),
          ((read_data it.dec (pyBasename it.url) []).table).getD ⟨[], []⟩)] := by
  intro items
  induction items with
  | nil =>
    intro s _ f hf
    cases hf
  | cons g t ih =>
    intro s hnodup f hf p hp hinit
    rw [runUrlLoop_cons]
    rcases List.mem_cons.mp hf with rfl | hf'
    · have hnot : ∀ h ∈ t, urlSuccessPath h ≠ some p := by
        intro h hh heq
        rw [List.filterMap_cons_some hp] at hnodup
        exact (List.nodup_cons.mp hnodup).1 (List.mem_filterMap.mpr ⟨h, hh, heq⟩)
      rw [runUrlLoop_sql_preserve t _ p hnot]
      simp only [url_step_sql, hp]
      rw [lookupTables_setTable_self, hinit]
      simp
    · cases hsg : urlSuccessPath g with
      | none =>
        have hnodup' : (t.filterMap urlSuccessPath).Nodup := by
          rwa [List.filterMap_cons_none hsg] at hnodup
        have hinit' : lookupTables (url_step s g).sql p = [] := by
          simp only [url_step_sql, hsg]
          exact hinit
        exact ih (url_step s g) hnodup' f hf' p hp hinit'
      | some p' =>
        rw [List.filterMap_cons_some hsg] at hnodup
        have hp'ne : p' ≠ p := by
          intro h
          subst h
          exact (List.nodup_cons.mp hnodup).1 (List.mem_filterMap.mpr ⟨f, hf', hp⟩)
        have hinit' : lookupTables (url_step s g).sql p = [] := by
          simp only [url_step_sql, hsg]
          rw [lookupTables_setTable_ne _ _ _ (fun h => hp'ne h.symm)]
          exact hinit
        exact ih (url_step s g) (List.nodup_cons.mp hnodup).2 f hf' p hp hinit'

theorem runFolderLoop_sql_success :
    ∀ (files : List FolderFile) (s : Session),
    (files.filterMap folderSuccessPath).Nodup →
    ∀ f, f ∈ files → ∀ p, folderSuccessPath f = some p →
    lookupTables s.sql p = [] →
    lookupTables (runFolderLoop files s).sql p
      = [(splitextBase f.name,
          ((read_data f.dec f.name []).table).getD ⟨[], []⟩)] := by
  intro files
  induction files with
  | nil =>
    intro s _ f hf
    cases hf
  | cons g t ih =>
    intro s hnodup f hf p hp hinit
    rw [runFolderLoop_cons]
    rcases List.mem_cons.mp hf with rfl | hf'
    · have hnot : ∀ h ∈ t, folderSuccessPath h ≠ some p := by
        intro h hh heq
        rw [List.filterMap_cons_some hp] at hnodup
        exact (List.nodup_cons.mp hnodup).1 (List.mem_filterMap.mpr ⟨h, hh, heq⟩)
      rw [runFolderLoop_sql_preserve t _ p hnot]
      simp only [folder_step_sql, hp]
      rw [lookupTables_setTable_self, hinit]
      simp
    · cases hsg : folderSuccessPath g with
      | none =>
        have hnodup' : (t.filterMap folderSuccessPath).Nodup := by
          rwa [List.filterMap_cons_none hsg] at hnodup
        have hinit' : lookupTables (folder_file_step s g).sql p = [] := by
          simp only [folder_step_sql, hsg]
          exact hinit
        exact ih (folder_file_step s g) hnodup' f hf' p hp hinit'
      | some p' =>
        rw [List.filterMap_cons_some hsg] at hnodup
        have hp'ne : p' ≠ p := by
          intro h
          subst h
          exact (List.nodup_cons.mp hnodup).1 (List.mem_filterMap.mpr ⟨f, hf', hp⟩)
        have hinit' : lookupTables (folder_file_step s g).sql p = [] := by
          simp only [folder_step_sql, hsg]
          rw [lookupTables_setTable_ne _ _ _ (fun h => hp'ne h.symm)]
          exact hinit
        exact ih (folder_file_step s g) (List.nodup_cons.mp hnodup).2 f hf' p hp hinit'

theorem runGithubLoop_sql_success :
    ∀ (items : List GithubFile) (s : Session),
    (items.filterMap githubSuccessPath).Nodup →
    ∀ g, g ∈ items → ∀ p, githubSuccessPath g = some p →
    lookupTables s.sql p = [] →
    lookupTables (runGithubLoop items s).sql p
      = [(splitextBase g.name,
          ((read_data g.dec g.name []).table).getD ⟨[], []⟩)] := by
  intro items
  induction items with
  | nil =>
    intro s _ f hf
    cases hf
  | cons g t ih =>
    intro s hnodup f hf p hp hinit
    rw [runGithubLoop_cons]
    rcases List.mem_cons.mp hf with rfl | hf'
    · have hnot : ∀ h ∈ t, githubSuccessPath h ≠ some p := by
        intro h hh heq
        rw [List.filterMap_cons_some hp] at hnodup
        exact (List.nodup_cons.mp hnodup).1 (List.mem_filterMap.mpr ⟨h, hh, heq⟩)
      rw [runGithubLoop_sql_preserve t _ p hnot]
      simp only [github_step_sql, hp]
      rw [lookupTables_setTable_self, hinit]
      simp
    · cases hsg : githubSuccessPath g with
      | none =>
        have hnodup' : (t.filterMap githubSuccessPath).Nodup := by
          rwa [List.filterMap_cons_none hsg] at hnodup
        have hinit' : lookupTables (github_step s g).sql p = [] := by
          simp only [github_step_sql, hsg]
          exact hinit
        exact ih (github_step s g) hnodup' f hf' p hp hinit'
      | some p' =>
        rw [List.filterMap_cons_some hsg] at hnodup
        have hp'ne : p' ≠ p := by
          intro h
          subst h
          exact (List.nodup_cons.mp hnodup).1 (List.mem_filterMap.mpr ⟨f, hf', hp⟩)
        have hinit' : lookupTables (github_step s g).sql p = [] := by
          simp only [github_step_sql, hsg]
          rw [lookupTables_setTable_ne _ _ _ (fun h => hp'ne h.symm)]
          exact hinit
        exact ih (github_step s g) (List.nodup_cons.mp hnodup).2 f hf' p hp hinit'

theorem urlDbPath_ends_db (it : UrlItem) :
    pyEndsWith (urlDbPathOf it) ".db" = true :=
  pyEndsWith_append_self (splitextBase (pyBasename it.url)) ".db"

theorem folderDbPath_ends_db (f : FolderFile) :
    pyEndsWith (folderDbPathOf f) ".db" = true :=
  pyEndsWith_append_self (splitextBase f.name) ".db"

theorem githubDbPath_ends_db (g : GithubFile) :
    pyEndsWith (githubDbPathOf g) ".db" = true :=
  pyEndsWith_append_self (splitextBase g.name) ".db"

/-- Claim C6: per-item failures are isolated, in every ingestion branch
and in the query phase.  For the upload, URL, folder, and GitHub loops,
the final `db_paths` list is exactly the per-item fold of successes — an
item that fails to acquire (URL fetch, GitHub download), to decode, or to
load is dropped while every other item still contributes its database —
and the session's error list is exactly the in-order concatenation of the
per-item error reports (a failed fetch is reported per-URL at
src/Text2sql.py lines 136-137, a failed download inside
`download_file_from_github`, decode and load failures by `read_data` and
`create_sqlite_db_from_dataframe`).  The query phase produces one result
for every loaded database, agent failures becoming per-database error
entries.  No per-item failure aborts the session. -/
theorem per_item_failures_isolated :
    (∀ files : List UploadFile,
      (runUploadLoop files emptySession).db_paths
          = files.filterMap uploadSuccessPath ∧
      (runUploadLoop files emptySession).errors = files.flatMap uploadErrorsOf) ∧
    (∀ items : List UrlItem,
      (runUrlLoop items emptySession).db_paths = items.filterMap urlSuccessPath ∧
      (runUrlLoop items emptySession).errors = items.flatMap urlErrorsOf) ∧
    (∀ files : List FolderFile,
      (runFolderLoop files emptySession).db_paths
          = files.filterMap folderSuccessPath ∧
      (runFolderLoop files emptySession).errors = files.flatMap folderErrorsOf) ∧
    (∀ items : List GithubFile,
      (runGithubLoop items emptySession).db_paths
          = items.filterMap githubSuccessPath ∧
      (runGithubLoop items emptySession).errors = items.flatMap githubErrorsOf) ∧
    (∀ (agent : String → String → AgentOutcome) (query : String)
        (dbs : List String),
      query_loop agent query dbs []
        = dbs.map (fun db => resultFor (agent db query))) := by
  refine ⟨fun files => ⟨?_, ?_⟩, fun items => ⟨?_, ?_⟩, fun files => ⟨?_, ?_⟩,
    fun items => ⟨?_, ?_⟩, fun agent query dbs => ?_⟩
  · rw [runUploadLoop_db_paths]
    simp [emptySession]
  · rw [runUploadLoop_errors]
    simp [emptySession]
  · rw [runUrlLoop_db_paths]
    simp [emptySession]
  · rw [runUrlLoop_errors]
    simp [emptySession]
  · rw [runFolderLoop_db_paths]
    simp [emptySession]
  · rw [runFolderLoop_errors]
    simp [emptySession]
  · rw [runGithubLoop_db_paths]
    simp [emptySession]
  · rw [runGithubLoop_errors]
    simp [emptySession]
  · rw [query_loop_eq_map]
    simp

/-- Claim C7 (amended): for every successfully ingested source file —
its acquisition, decode, and SQLite load all succeeded, including `.xpt`
files ingested through the fallback reader — provided no OTHER
successfully ingested file of the same batch shares its database path
(equivalently, its basename), exactly one database file is created for
it, named `<basename>.db`, or `temp_<basename>.db` when the source is an
upload, containing exactly one table named `<basename>` whose contents
are exactly that file's decoded DataFrame.  Other files of the batch may
fail to acquire, decode, or load without disturbing this.  This holds in
all four ingestion branches; for uploads the file names carry one of the
three supported extensions, which the `st.file_uploader` widget's
`type=["csv","xlsx","xpt"]` restriction guarantees.  When two
successfully ingested files do share a basename they share one database
file and the earlier table contents are overwritten (see the
counterexample). -/
theorem one_db_per_ingested_file :
    (∀ files : List UploadFile,
      (∀ f ∈ files, isSupportedName f.name = true) →
      (files.filterMap uploadSuccessPath).Nodup →
      ∀ f, f ∈ files → ∀ df, decodedDfOf f = some df → f.load = none →
        dbPathOf f ∈ (runUploadLoop files emptySession).fs ∧
        lookupTables (runUploadLoop files emptySession).sql (dbPathOf f)
          = [(splitextBase f.name, df)]) ∧
    (∀ items : List UrlItem,
      (items.filterMap urlSuccessPath).Nodup →
      ∀ it, it ∈ items → (∃ u, it.fetched = Except.ok u) →
      ∀ df, (read_data it.dec (pyBasename it.url) []).table = some df →
      it.load = none →
        urlDbPathOf it ∈ (runUrlLoop items emptySession).fs ∧
        lookupTables (runUrlLoop items emptySession).sql (urlDbPathOf it)
          = [(splitextBase (pyBasename it.url), df)]) ∧
    (∀ files : List FolderFile,
      (files.filterMap folderSuccessPath).Nodup →
      ∀ f, f ∈ files → ∀ df, (read_data f.dec f.name []).table = some df →
      f.load = none →
        folderDbPathOf f ∈ (runFolderLoop files emptySession).fs ∧
        lookupTables (runFolderLoop files emptySession).sql (folderDbPathOf f)
          = [(splitextBase f.name, df)]) ∧
    (∀ items : List GithubFile,
      (items.filterMap githubSuccessPath).Nodup →
      ∀ g, g ∈ items → (∃ u, g.download = Except.ok u) →
      ∀ df, (read_data g.dec g.name []).table = some df →
      g.load = none →
        githubDbPathOf g ∈ (runGithubLoop items emptySession).fs ∧
        lookupTables (runGithubLoop items emptySession).sql (githubDbPathOf g)
          = [(splitextBase g.name, df)]) := by
  refine ⟨?_, ?_, ?_, ?_⟩
  · intro files hsupp hnodup f hf df hdf hload
    have hp : uploadSuccessPath f = some (dbPathOf f) := by
      simp only [uploadSuccessPath]
      rw [show (read_data f.dec f.name []).table = some df from hdf, hload]
    refine ⟨(runUploadLoop_mem_db (dbPath_ends_db f) files emptySession hsupp).mpr
      (Or.inr ⟨f, hf, hp⟩), ?_⟩
    rw [runUploadLoop_sql_success files emptySession hnodup f hf (dbPathOf f) hp rfl,
      hdf]
    rfl
  · intro items hnodup it hit hfetch df hdf hload
    obtain ⟨u, hu⟩ := hfetch
    have hp : urlSuccessPath it = some (urlDbPathOf it) := by
      simp only [urlSuccessPath]
      rw [hu,
        show (read_data it.dec (pyBasename it.url) []).table = some df from hdf,
        hload]
    refine ⟨(runUrlLoop_mem_db (urlDbPath_ends_db it) items emptySession).mpr
      (Or.inr ⟨it, hit, hp⟩), ?_⟩
    rw [runUrlLoop_sql_success items emptySession hnodup it hit (urlDbPathOf it)
      hp rfl, hdf]
    rfl
  · intro files hnodup f hf df hdf hload
    have hp : folderSuccessPath f = some (folderDbPathOf f) := by
      simp only [folderSuccessPath]
      rw [show (read_data f.dec f.name []).table = some df from hdf, hload]
    refine ⟨(runFolderLoop_mem_db (folderDbPath_ends_db f) files emptySession).mpr
      (Or.inr ⟨f, hf, hp⟩), ?_⟩
    rw [runFolderLoop_sql_success files emptySession hnodup f hf (folderDbPathOf f)
      hp rfl, hdf]
    rfl
  · intro items hnodup g hg hdl df hdf hload
    obtain ⟨u, hu⟩ := hdl
    have hp : githubSuccessPath g = some (githubDbPathOf g) := by
      simp only [githubSuccessPath]
      rw [hu, show (read_data g.dec g.name []).table = some df from hdf, hload]
    refine ⟨(runGithubLoop_mem_db (githubDbPath_ends_db g) items emptySession).mpr
      (Or.inr ⟨g, hg, hp⟩), ?_⟩
    rw [runGithubLoop_sql_success items emptySession hnodup g hg (githubDbPathOf g)
      hp rfl, hdf]
    rfl

/-- Claim C10: session-wide invariant of the `db_paths` list, in all four
ingestion branches (upload, URL, folder, GitHub): every path in the final
list was appended by an iteration whose decode returned a table (not
`None`) and whose SQLite load returned success — and, where the branch
acquires remotely, whose fetch/download succeeded — and equals that
item's database path.  The query phase iterates exactly `db_paths`, so it
only ever runs against databases created by a successful load of a
Decoded Table in the current session. -/
theorem db_paths_invariant :
    (∀ (files : List UploadFile) (p : String),
      p ∈ (runUploadLoop files emptySession).db_paths →
      ∃ f, f ∈ files ∧ (∃ df, (read_data f.dec f.name []).table = some df) ∧
        f.load = none ∧ p = dbPathOf f) ∧
    (∀ (items : List UrlItem) (p : String),
      p ∈ (runUrlLoop items emptySession).db_paths →
      ∃ it, it ∈ items ∧ (∃ u, it.fetched = Except.ok u) ∧
        (∃ df, (read_data it.dec (pyBasename it.url) []).table = some df) ∧
        it.load = none ∧ p = urlDbPathOf it) ∧
    (∀ (files : List FolderFile) (p : String),
      p ∈ (runFolderLoop files emptySession).db_paths →
      ∃ f, f ∈ files ∧ (∃ df, (read_data f.dec f.name []).table = some df) ∧
        f.load = none ∧ p = folderDbPathOf f) ∧
    (∀ (items : List GithubFile) (p : String),
      p ∈ (runGithubLoop items emptySession).db_paths →
      ∃ g, g ∈ items ∧ (∃ u, g.download = Except.ok u) ∧
        (∃ df, (read_data g.dec g.name []).table = some df) ∧
        g.load = none ∧ p = githubDbPathOf g) := by
  refine ⟨?_, ?_, ?_, ?_⟩
  · intro files p hp
    rw [runUploadLoop_db_paths] at hp
    simp only [emptySession, List.nil_append] at hp
    obtain ⟨f, hf, hsucc⟩ := List.mem_filterMap.mp hp
    refine ⟨f, hf, ?_⟩
    unfold uploadSuccessPath at hsucc
    cases h1 : (read_data f.dec f.name []).table with
    | none =>
      rw [h1] at hsucc
      simp at hsucc
    | some df =>
      cases h2 : f.load with
      | none =>
        rw [h1, h2] at hsucc
        simp at hsucc
        exact ⟨⟨df, rfl⟩, rfl, hsucc.symm⟩
      | some e =>
        rw [h1, h2] at hsucc
        simp at hsucc
  · intro items p hp
    rw [runUrlLoop_db_paths] at hp
    simp only [emptySession, List.nil_append] at hp
    obtain ⟨it, hit, hsucc⟩ := List.mem_filterMap.mp hp
    refine ⟨it, hit, ?_⟩
    unfold urlSuccessPath at hsucc
    cases hfet : it.fetched with
    | error e =>
      rw [hfet] at hsucc
      simp at hsucc
    | ok u =>
      rw [hfet] at hsucc
      cases h1 : (read_data it.dec (pyBasename it.url) []).table with
      | none =>
        rw [h1] at hsucc
        simp at hsucc
      | some df =>
        cases h2 : it.load with
        | none =>
          rw [h1, h2] at hsucc
          simp at hsucc
          exact ⟨⟨u, rfl⟩, ⟨df, rfl⟩, rfl, hsucc.symm⟩
        | some e =>
          rw [h1, h2] at hsucc
          simp at hsucc
  · intro files p hp
    rw [runFolderLoop_db_paths] at hp
    simp only [emptySession, List.nil_append] at hp
    obtain ⟨f, hf, hsucc⟩ := List.mem_filterMap.mp hp
    refine ⟨f, hf, ?_⟩
    unfold folderSuccessPath at hsucc
    cases h1 : (read_data f.dec f.name []).table with
    | none =>
      rw [h1] at hsucc
      simp at hsucc
    | some df =>
      cases h2 : f.load with
      | none =>
        rw [h1, h2] at hsucc
        simp at hsucc
        exact ⟨⟨df, rfl⟩, rfl, hsucc.symm⟩
      | some e =>
        rw [h1, h2] at hsucc
        simp at hsucc
  · intro items p hp
    rw [runGithubLoop_db_paths] at hp
    simp only [emptySession, List.nil_append] at hp
    obtain ⟨g, hg, hsucc⟩ := List.mem_filterMap.mp hp
    refine ⟨g, hg, ?_⟩
    unfold githubSuccessPath at hsucc
    cases hdl : g.download with
    | error e =>
      rw [hdl] at hsucc
      simp at hsucc
    | ok u =>
      rw [hdl] at hsucc
      cases h1 : (read_data g.dec g.name []).table with
      | none =>
        rw [h1] at hsucc
        simp at hsucc
      | some df =>
        cases h2 : g.load with
        | none =>
          rw [h1, h2] at hsucc
          simp at hsucc
          exact ⟨⟨u, rfl⟩, ⟨df, rfl⟩, rfl, hsucc.symm⟩
        | some e =>
          rw [h1, h2] at hsucc
          simp at hsucc

/-- Upload `bad.xpt` whose decode fails in both transport readers (a
failing item for mixed-batch demonstrations). -/
def fileBadXpt : UploadFile :=
  ⟨"bad.xpt", ⟨.error "e1", .error "e2", .error "pe", .error "se"⟩, none⟩

/-- A URL line whose fetch, decode, and load all succeed. -/
def urlItemA : UrlItem := ⟨"http://host/u.csv", .ok (), csvDec dfA, none⟩

/-- A folder entry whose decode and load succeed. -/
def folderFileA : FolderFile := ⟨"f.csv", csvDec dfA, none⟩

/-- A GitHub file whose download, decode, and load succeed. -/
def githubFileA : GithubFile := ⟨"AE.csv", .ok (), csvDec dfA, none⟩

/-- Concrete instance of `one_db_per_ingested_file` on the MIXED upload
batch `a.csv`, `bad.xpt` (fails both transport decoders), `b.csv`: the
successfully ingested `a.csv` still gets its own database `temp_a.db`
holding exactly its decoded table, the failing file notwithstanding. -/
theorem one_db_per_ingested_file_witness :
    dbPathOf fileACsv
        ∈ (runUploadLoop [fileACsv, fileBadXpt, fileBCsv] emptySession).fs ∧
    lookupTables (runUploadLoop [fileACsv, fileBadXpt, fileBCsv] emptySession).sql
        (dbPathOf fileACsv)
      = [(splitextBase fileACsv.name, dfA)] :=
  one_db_per_ingested_file.1 [fileACsv, fileBadXpt, fileBCsv]
    (by decide) (by decide) fileACsv (by decide) dfA (by decide) rfl

/-- Concrete instance of `db_paths_invariant` in each of the four
ingestion branches: the one path produced by a one-item session traces
back to that item's successful acquisition, decode, and load. -/
theorem db_paths_invariant_witness :
    (∃ f, f ∈ [fileACsv] ∧ (∃ df, (read_data f.dec f.name []).table = some df) ∧
      f.load = none ∧ "temp_a.db" = dbPathOf f) ∧
    (∃ it, it ∈ [urlItemA] ∧ (∃ u, it.fetched = Except.ok u) ∧
      (∃ df, (read_data it.dec (pyBasename it.url) []).table = some df) ∧
      it.load = none ∧ "u.db" = urlDbPathOf it) ∧
    (∃ f, f ∈ [folderFileA] ∧ (∃ df, (read_data f.dec f.name []).table = some df) ∧
      f.load = none ∧ "f.db" = folderDbPathOf f) ∧
    (∃ g, g ∈ [githubFileA] ∧ (∃ u, g.download = Except.ok u) ∧
      (∃ df, (read_data g.dec g.name []).table = some df) ∧
      g.load = none ∧ "AE.db" = githubDbPathOf g) :=
  ⟨db_paths_invariant.1 [fileACsv] "temp_a.db" (by decide),
   db_paths_invariant.2.1 [urlItemA] "u.db" (by decide),
   db_paths_invariant.2.2.1 [folderFileA] "f.db" (by decide),
   db_paths_invariant.2.2.2 [githubFileA] "AE.db" (by decide)⟩
